import Mathlib

/-!
# Input state of a GLFW window (src/input.c)

A shallow embedding of the eleven public operations of `input.c`.

* Pointers (`GLFWwindow`, the callback types, the `int*` outputs of
  `glfwGetMousePos`) are addresses, `Nat`, with `NULL = 0`.
* The windows live in a heap, `State.heap`, a partial map from addresses to
  window records. Dereferencing `NULL` or an address without a record, and
  indexing a table outside its bounds, is undefined behaviour in C: the
  operations return `none` there.
* C `int` values are `Int`; the file does no arithmetic on them, only
  comparisons and copies, so no overflow can occur.
* Calls that leave the file (the platform cursor hook and the user callbacks)
  are appended to the trace `State.calls`, in the order they are made. What
  the callee does afterwards is not part of `input.c`.
-/

namespace GLFW

/-- Modelled from the spec: the three values a key or button slot holds
(`GLFW_RELEASE`, `GLFW_PRESS` and the internal `GLFW_STICK` of the missing
headers): "TriState = {Released, Pressed, Sticky}". -/
inductive TriState where
  | GLFW_RELEASE
  | GLFW_PRESS
  | GLFW_STICK
  deriving DecidableEq

/-- Modelled from the spec: the error kinds of the missing header that
`input.c` reports: `NotInitialized`, `InvalidValue`, `InvalidEnum`. -/
inductive ErrorCode where
  | GLFW_NOT_INITIALIZED
  | GLFW_INVALID_VALUE
  | GLFW_INVALID_ENUM
  deriving DecidableEq

/-- The null pointer. -/
def NULL : Nat := 0

/-- A window handle: a pointer to a window record. -/
abbrev GLFWwindow := Nat

/-- Pointer to a user key callback. -/
abbrev GLFWkeyfun := Nat

/-- Pointer to a user character callback. -/
abbrev GLFWcharfun := Nat

/-- Pointer to a user mouse button callback. -/
abbrev GLFWmousebuttonfun := Nat

/-- Pointer to a user cursor-move callback. -/
abbrev GLFWmouseposfun := Nat

/-- Pointer to a user wheel callback. -/
abbrev GLFWmousewheelfun := Nat

/-- Modelled from the spec: the window record of the missing `internal.h`,
with the fields `input.c` reads and writes: the key and button tables, the
cursor position, the wheel position and the five callback slots. -/
structure Window where
  key : List TriState
  mouseButton : List TriState
  mousePosX : Int
  mousePosY : Int
  wheelPos : Int
  keyCallback : GLFWkeyfun
  charCallback : GLFWcharfun
  mouseButtonCallback : GLFWmousebuttonfun
  mousePosCallback : GLFWmouseposfun
  mouseWheelCallback : GLFWmousewheelfun
  deriving DecidableEq

/-- A call that leaves `input.c`: the platform cursor hook
`_glfwPlatformSetMouseCursorPos(window, x, y)`, the call `cbfun(window, x, y)`
of `glfwSetMousePosCallback` and the call `cbfun(window, pos)` of
`glfwSetMouseWheelCallback`. -/
inductive Call where
  | platformSetMouseCursorPos (window : GLFWwindow) (x y : Int)
  | mousePosFun (cbfun : GLFWmouseposfun) (window : GLFWwindow) (x y : Int)
  | mouseWheelFun (cbfun : GLFWmousewheelfun) (window : GLFWwindow) (pos : Int)
  deriving DecidableEq

/-- The process-wide state the operations work on: the flag
`_glfwInitialized`, the last-error slot behind `_glfwSetError`,
`_glfwLibrary.cursorLockWindow`, the window records, and the trace of the
calls made out of the file. -/
structure State where
  _glfwInitialized : Bool
  lastError : Option ErrorCode
  cursorLockWindow : GLFWwindow
  heap : GLFWwindow → Option Window
  calls : List Call

/-- Modelled from the spec: `_glfwSetError` of the missing error module, "a
process-wide last error slot is set on every validation failure". -/
def _glfwSetError (error : ErrorCode) (s : State) : State :=
  { s with lastError := some error }

/-- Modelled from the spec: the platform hook "move the physical cursor to
(x, y) for this window", fire-and-forget; the call is recorded. -/
def _glfwPlatformSetMouseCursorPos (window : GLFWwindow) (x y : Int) (s : State) : State :=
  { s with calls := s.calls ++ [Call.platformSetMouseCursorPos window x y] }

/-- The record `window` points to, `none` for `NULL` and for a dangling
pointer. -/
def State.deref (s : State) (window : GLFWwindow) : Option Window :=
  if window = NULL then none else s.heap window

/-- Write the record `w` back through the pointer `window`. -/
def State.store (s : State) (window : GLFWwindow) (w : Window) : State :=
  { s with heap := Function.update s.heap window (some w) }

/-- Read `tbl[i]` for a C `int` index, `none` outside the table. -/
def index (tbl : List TriState) (i : Int) : Option TriState :=
  if 0 ≤ i then tbl[i.toNat]? else none

/-- Assign `tbl[i] = v` for a C `int` index, `none` outside the table. -/
def assign (tbl : List TriState) (i : Int) (v : TriState) : Option (List TriState) :=
  if 0 ≤ i ∧ i.toNat < tbl.length then some (tbl.set i.toNat v) else none

/-- Returns the state of the specified key for the specified window.
`GLFW_KEY_LAST` is the constant of the missing header. -/
def glfwGetKey (GLFW_KEY_LAST : Nat) (window : GLFWwindow) (key : Int) (s : State) :
    Option (TriState × State) :=
  if !s._glfwInitialized then
    some (TriState.GLFW_RELEASE, _glfwSetError ErrorCode.GLFW_NOT_INITIALIZED s)
  else if key < 0 ∨ key > (GLFW_KEY_LAST : Int) then
    some (TriState.GLFW_RELEASE, _glfwSetError ErrorCode.GLFW_INVALID_VALUE s)
  else do
    let w ← s.deref window
    let k ← index w.key key
    if k = TriState.GLFW_STICK then
      let tbl ← assign w.key key TriState.GLFW_RELEASE
      some (TriState.GLFW_PRESS, s.store window { w with key := tbl })
    else
      let v ← index w.key key
      some (v, s)

/-- Returns the state of the specified mouse button for the specified window.
`GLFW_MOUSE_BUTTON_LAST` is the constant of the missing header. -/
def glfwGetMouseButton (GLFW_MOUSE_BUTTON_LAST : Nat) (window : GLFWwindow) (button : Int)
    (s : State) : Option (TriState × State) :=
  if !s._glfwInitialized then
    some (TriState.GLFW_RELEASE, _glfwSetError ErrorCode.GLFW_NOT_INITIALIZED s)
  else if button < 0 ∨ button > (GLFW_MOUSE_BUTTON_LAST : Int) then
    some (TriState.GLFW_RELEASE, _glfwSetError ErrorCode.GLFW_INVALID_ENUM s)
  else do
    let w ← s.deref window
    let b ← index w.mouseButton button
    if b = TriState.GLFW_STICK then
      let tbl ← assign w.mouseButton button TriState.GLFW_RELEASE
      some (TriState.GLFW_PRESS, s.store window { w with mouseButton := tbl })
    else
      let v ← index w.mouseButton button
      some (v, s)

/-- Returns the last reported cursor position for the specified window. The
result holds the value stored through `xpos` and the value stored through
`ypos`, `none` where nothing is stored. -/
def glfwGetMousePos (window : GLFWwindow) (xpos ypos : Nat) (s : State) :
    Option ((Option Int × Option Int) × State) :=
  if !s._glfwInitialized then
    some ((none, none), _glfwSetError ErrorCode.GLFW_NOT_INITIALIZED s)
  else do
    let x ← if xpos ≠ NULL then (s.deref window).map (fun w => some w.mousePosX) else some none
    let y ← if ypos ≠ NULL then (s.deref window).map (fun w => some w.mousePosY) else some none
    some ((x, y), s)

/-- Sets the cursor position relative to the position of the client area of
the specified window. -/
def glfwSetMousePos (window : GLFWwindow) (xpos ypos : Int) (s : State) : Option State :=
  if !s._glfwInitialized then
    some (_glfwSetError ErrorCode.GLFW_NOT_INITIALIZED s)
  else do
    let w ← s.deref window
    if xpos = w.mousePosX ∧ ypos = w.mousePosY then
      some s
    else
      let s1 := s.store window { w with mousePosX := xpos, mousePosY := ypos }
      if s1.cursorLockWindow = window then
        some s1
      else
        some (_glfwPlatformSetMouseCursorPos window xpos ypos s1)

/-- Returns the mouse wheel "position" for the specified window. -/
def glfwGetMouseWheel (window : GLFWwindow) (s : State) : Option (Int × State) :=
  if !s._glfwInitialized then
    some (0, _glfwSetError ErrorCode.GLFW_NOT_INITIALIZED s)
  else do
    let w ← s.deref window
    some (w.wheelPos, s)

/-- Sets the mouse wheel "position" for the specified window. -/
def glfwSetMouseWheel (window : GLFWwindow) (pos : Int) (s : State) : Option State :=
  if !s._glfwInitialized then
    some (_glfwSetError ErrorCode.GLFW_NOT_INITIALIZED s)
  else do
    let w ← s.deref window
    some (s.store window { w with wheelPos := pos })

/-- Set callback function for keyboard input. -/
def glfwSetKeyCallback (window : GLFWwindow) (cbfun : GLFWkeyfun) (s : State) : Option State :=
  if !s._glfwInitialized then
    some (_glfwSetError ErrorCode.GLFW_NOT_INITIALIZED s)
  else do
    let w ← s.deref window
    some (s.store window { w with keyCallback := cbfun })

/-- Set callback function for character input. -/
def glfwSetCharCallback (window : GLFWwindow) (cbfun : GLFWcharfun) (s : State) : Option State :=
  if !s._glfwInitialized then
    some (_glfwSetError ErrorCode.GLFW_NOT_INITIALIZED s)
  else do
    let w ← s.deref window
    some (s.store window { w with charCallback := cbfun })

/-- Set callback function for mouse clicks. -/
def glfwSetMouseButtonCallback (window : GLFWwindow) (cbfun : GLFWmousebuttonfun) (s : State) :
    Option State :=
  if !s._glfwInitialized then
    some (_glfwSetError ErrorCode.GLFW_NOT_INITIALIZED s)
  else do
    let w ← s.deref window
    some (s.store window { w with mouseButtonCallback := cbfun })

/-- Set callback function for mouse moves; a non-null callback is called at
once with the current mouse position. -/
def glfwSetMousePosCallback (window : GLFWwindow) (cbfun : GLFWmouseposfun) (s : State) :
    Option State :=
  if !s._glfwInitialized then
    some (_glfwSetError ErrorCode.GLFW_NOT_INITIALIZED s)
  else do
    let w ← s.deref window
    let s1 := s.store window { w with mousePosCallback := cbfun }
    if cbfun ≠ NULL then
      let w1 ← s1.deref window
      some { s1 with calls := s1.calls ++ [Call.mousePosFun cbfun window w1.mousePosX w1.mousePosY] }
    else
      some s1

/-- Set callback function for mouse wheel; a non-null callback is called at
once with the current wheel position. -/
def glfwSetMouseWheelCallback (window : GLFWwindow) (cbfun : GLFWmousewheelfun) (s : State) :
    Option State :=
  if !s._glfwInitialized then
    some (_glfwSetError ErrorCode.GLFW_NOT_INITIALIZED s)
  else do
    let w ← s.deref window
    let s1 := s.store window { w with mouseWheelCallback := cbfun }
    if cbfun ≠ NULL then
      let w1 ← s1.deref window
      some { s1 with calls := s1.calls ++ [Call.mouseWheelFun cbfun window w1.wheelPos] }
    else
      some s1

/-- What a call on an uninitialised library may do to the state: only the
last-error slot differs, and it holds `GLFW_NOT_INITIALIZED`. -/
def NotInitializedOutcome (s s' : State) : Prop :=
  s'.heap = s.heap ∧ s'.calls = s.calls ∧ s'._glfwInitialized = s._glfwInitialized ∧
  s'.cursorLockWindow = s.cursorLockWindow ∧
  s'.lastError = some ErrorCode.GLFW_NOT_INITIALIZED

/-- The library state outside the record of `window` and outside the call
trace is the same in `s` and `s'`: the initialised flag, the last-error slot,
the cursor-lock holder and the record of every other window. -/
def SameOutside (window : GLFWwindow) (s s' : State) : Prop :=
  s'._glfwInitialized = s._glfwInitialized ∧ s'.lastError = s.lastError ∧
  s'.cursorLockWindow = s.cursorLockWindow ∧
  ∀ p : GLFWwindow, p ≠ window → s'.heap p = s.heap p

/-- A window with four key slots and two button slots, cursor at (3, 4), wheel
at 5, a key callback and a cursor-move callback registered. -/
def sampleWindow : Window :=
  { key := [TriState.GLFW_RELEASE, TriState.GLFW_PRESS, TriState.GLFW_STICK, TriState.GLFW_RELEASE],
    mouseButton := [TriState.GLFW_STICK, TriState.GLFW_PRESS],
    mousePosX := 3, mousePosY := 4, wheelPos := 5,
    keyCallback := 11, charCallback := 0, mouseButtonCallback := 0,
    mousePosCallback := 14, mouseWheelCallback := 0 }

/-- An initialised library with `sampleWindow` at address 1, no cursor lock,
an earlier error recorded and an empty trace. -/
def sampleState : State :=
  { _glfwInitialized := true, lastError := some ErrorCode.GLFW_INVALID_ENUM,
    cursorLockWindow := NULL,
    heap := fun p => if p = 1 then some sampleWindow else none,
    calls := [] }

/-- The state `sampleState` with window 1 holding the cursor lock. -/
def sampleLocked : State := { sampleState with cursorLockWindow := 1 }

/-- The state `sampleState` before the library is initialised. -/
def sampleUninit : State := { sampleState with _glfwInitialized := false }

/-- The tables of a window have the sizes `internal.h` declares them with:
`GLFW_KEY_LAST + 1` key slots and `GLFW_MOUSE_BUTTON_LAST + 1` button slots. -/
def Window.wellSized (keyLast buttonLast : Nat) (w : Window) : Prop :=
  w.key.length = keyLast + 1 ∧ w.mouseButton.length = buttonLast + 1

/-- The stored cursor position of the window at address `p`, if there is
one. -/
def cursorOf (s : State) (p : GLFWwindow) : Option (Int × Int) :=
  (s.deref p).map (fun w => (w.mousePosX, w.mousePosY))

/-- A call of one of the eleven operations of the file, with its arguments. -/
inductive Op where
  | glfwGetKey (window : GLFWwindow) (key : Int)
  | glfwGetMouseButton (window : GLFWwindow) (button : Int)
  | glfwGetMousePos (window : GLFWwindow) (xpos ypos : Nat)
  | glfwSetMousePos (window : GLFWwindow) (xpos ypos : Int)
  | glfwGetMouseWheel (window : GLFWwindow)
  | glfwSetMouseWheel (window : GLFWwindow) (pos : Int)
  | glfwSetKeyCallback (window : GLFWwindow) (cbfun : GLFWkeyfun)
  | glfwSetCharCallback (window : GLFWwindow) (cbfun : GLFWcharfun)
  | glfwSetMouseButtonCallback (window : GLFWwindow) (cbfun : GLFWmousebuttonfun)
  | glfwSetMousePosCallback (window : GLFWwindow) (cbfun : GLFWmouseposfun)
  | glfwSetMouseWheelCallback (window : GLFWwindow) (cbfun : GLFWmousewheelfun)
  deriving DecidableEq

/-- The window argument of a call. -/
def Op.window : Op → GLFWwindow
  | Op.glfwGetKey window _ => window
  | Op.glfwGetMouseButton window _ => window
  | Op.glfwGetMousePos window _ _ => window
  | Op.glfwSetMousePos window _ _ => window
  | Op.glfwGetMouseWheel window => window
  | Op.glfwSetMouseWheel window _ => window
  | Op.glfwSetKeyCallback window _ => window
  | Op.glfwSetCharCallback window _ => window
  | Op.glfwSetMouseButtonCallback window _ => window
  | Op.glfwSetMousePosCallback window _ => window
  | Op.glfwSetMouseWheelCallback window _ => window

/-- Whether a call is a call of `glfwSetMousePos`. -/
def Op.isSetMousePos : Op → Bool
  | Op.glfwSetMousePos _ _ _ => true
  | _ => false

/-- The state a call leaves behind (its return value dropped), `none` where
the operation itself is undefined. -/
def Op.run (keyLast buttonLast : Nat) (op : Op) (s : State) : Option State :=
  match op with
  | Op.glfwGetKey window key => (GLFW.glfwGetKey keyLast window key s).map Prod.snd
  | Op.glfwGetMouseButton window button =>
      (GLFW.glfwGetMouseButton buttonLast window button s).map Prod.snd
  | Op.glfwGetMousePos window xpos ypos => (GLFW.glfwGetMousePos window xpos ypos s).map Prod.snd
  | Op.glfwSetMousePos window xpos ypos => GLFW.glfwSetMousePos window xpos ypos s
  | Op.glfwGetMouseWheel window => (GLFW.glfwGetMouseWheel window s).map Prod.snd
  | Op.glfwSetMouseWheel window pos => GLFW.glfwSetMouseWheel window pos s
  | Op.glfwSetKeyCallback window cbfun => GLFW.glfwSetKeyCallback window cbfun s
  | Op.glfwSetCharCallback window cbfun => GLFW.glfwSetCharCallback window cbfun s
  | Op.glfwSetMouseButtonCallback window cbfun => GLFW.glfwSetMouseButtonCallback window cbfun s
  | Op.glfwSetMousePosCallback window cbfun => GLFW.glfwSetMousePosCallback window cbfun s
  | Op.glfwSetMouseWheelCallback window cbfun => GLFW.glfwSetMouseWheelCallback window cbfun s

/-- The step of one slot over a call: the slot keeps its value, or it held
`GLFW_STICK` before, holds `GLFW_RELEASE` after, and `named` holds (the call
is the read of this very slot). -/
def slotStep (before after : Option TriState) (named : Prop) : Prop :=
  after = before ∨
  (before = some TriState.GLFW_STICK ∧ after = some TriState.GLFW_RELEASE ∧ named)

/-- Every window of `s` is still there in `s'`, and each of its key slots and
button slots has taken a `slotStep`; the step from `GLFW_STICK` to
`GLFW_RELEASE` is open only to key slot `i` of window `p` when the call is
`glfwGetKey(p, i)`, and to button slot `i` of window `p` when the call is
`glfwGetMouseButton(p, i)`. -/
def SlotSteps (op : Op) (s s' : State) : Prop :=
  ∀ (p : GLFWwindow) (wp : Window), s.deref p = some wp →
    ∃ wp', s'.deref p = some wp' ∧
      (∀ i : Int, slotStep (index wp.key i) (index wp'.key i) (op = Op.glfwGetKey p i)) ∧
      (∀ i : Int, slotStep (index wp.mouseButton i) (index wp'.mouseButton i)
        (op = Op.glfwGetMouseButton p i))

/-! ## Helper lemmas -/

theorem deref_store_same (s : State) (window : GLFWwindow) (w w' : Window)
    (h : s.deref window = some w) : (s.store window w').deref window = some w' := by
  unfold State.deref at h ⊢
  by_cases hn : window = NULL
  · simp [hn] at h
  · simp [hn, State.store]

theorem index_some_iff (tbl : List TriState) (i : Int) (v : TriState) :
    index tbl i = some v ↔ 0 ≤ i ∧ tbl[i.toNat]? = some v := by
  unfold index
  by_cases h : 0 ≤ i <;> simp [h]

theorem assign_of_index (tbl : List TriState) (i : Int) (v v' : TriState)
    (h : index tbl i = some v) : assign tbl i v' = some (tbl.set i.toNat v') := by
  obtain ⟨h0, h1⟩ := (index_some_iff tbl i v).1 h
  have hlt : i.toNat < tbl.length := by
    obtain ⟨hlt, -⟩ := List.getElem?_eq_some.1 h1
    exact hlt
  simp [assign, h0, hlt]

theorem index_set_same (tbl : List TriState) (i : Int) (v v' : TriState)
    (h : index tbl i = some v) : index (tbl.set i.toNat v') i = some v' := by
  obtain ⟨h0, h1⟩ := (index_some_iff tbl i v).1 h
  have hlt : i.toNat < tbl.length := by
    obtain ⟨hlt, -⟩ := List.getElem?_eq_some.1 h1
    exact hlt
  simp [index, h0, hlt]

theorem index_set_other (tbl : List TriState) (i j : Int) (v' : TriState)
    (h0 : 0 ≤ i) (hij : j ≠ i) : index (tbl.set i.toNat v') j = index tbl j := by
  unfold index
  by_cases hj : 0 ≤ j
  · have hne : i.toNat ≠ j.toNat := by
      intro he
      apply hij
      have := congrArg (fun n : Nat => (n : Int)) he
      simp only [Int.toNat_of_nonneg h0, Int.toNat_of_nonneg hj] at this
      exact this.symm
    simp [hj, List.getElem?_set_ne hne]
  · simp [hj]

theorem sameOutside_store (window : GLFWwindow) (s : State) (w : Window) :
    SameOutside window s (s.store window w) := by
  refine ⟨rfl, rfl, rfl, ?_⟩
  intro p hp
  simp [State.store, Function.update_noteq hp]

theorem glfwGetKey_stick (keyLast : Nat) (s : State) (window : GLFWwindow) (w : Window)
    (key : Int) (hinit : s._glfwInitialized = true) (hw : s.deref window = some w)
    (hhi : key ≤ (keyLast : Int)) (hk : index w.key key = some TriState.GLFW_STICK) :
    glfwGetKey keyLast window key s
      = some (TriState.GLFW_PRESS,
          s.store window { w with key := w.key.set key.toNat TriState.GLFW_RELEASE }) := by
  have h0 : 0 ≤ key := ((index_some_iff _ _ _).1 hk).1
  have hr : ¬ (key < 0 ∨ key > (keyLast : Int)) := by omega
  simp [glfwGetKey, hinit, hr, hw, hk, assign_of_index _ _ _ _ hk]

theorem glfwGetKey_plain (keyLast : Nat) (s : State) (window : GLFWwindow) (w : Window)
    (key : Int) (v : TriState) (hinit : s._glfwInitialized = true)
    (hw : s.deref window = some w) (hhi : key ≤ (keyLast : Int))
    (hk : index w.key key = some v) (hv : v ≠ TriState.GLFW_STICK) :
    glfwGetKey keyLast window key s = some (v, s) := by
  have h0 : 0 ≤ key := ((index_some_iff _ _ _).1 hk).1
  have hr : ¬ (key < 0 ∨ key > (keyLast : Int)) := by omega
  simp [glfwGetKey, hinit, hr, hw, hk, hv]

theorem glfwGetMouseButton_stick (buttonLast : Nat) (s : State) (window : GLFWwindow)
    (w : Window) (button : Int) (hinit : s._glfwInitialized = true)
    (hw : s.deref window = some w) (hhi : button ≤ (buttonLast : Int))
    (hb : index w.mouseButton button = some TriState.GLFW_STICK) :
    glfwGetMouseButton buttonLast window button s
      = some (TriState.GLFW_PRESS,
          s.store window
            { w with mouseButton := w.mouseButton.set button.toNat TriState.GLFW_RELEASE }) := by
  have h0 : 0 ≤ button := ((index_some_iff _ _ _).1 hb).1
  have hr : ¬ (button < 0 ∨ button > (buttonLast : Int)) := by omega
  simp [glfwGetMouseButton, hinit, hr, hw, hb, assign_of_index _ _ _ _ hb]

theorem glfwGetMouseButton_plain (buttonLast : Nat) (s : State) (window : GLFWwindow)
    (w : Window) (button : Int) (v : TriState) (hinit : s._glfwInitialized = true)
    (hw : s.deref window = some w) (hhi : button ≤ (buttonLast : Int))
    (hb : index w.mouseButton button = some v) (hv : v ≠ TriState.GLFW_STICK) :
    glfwGetMouseButton buttonLast window button s = some (v, s) := by
  have h0 : 0 ≤ button := ((index_some_iff _ _ _).1 hb).1
  have hr : ¬ (button < 0 ∨ button > (buttonLast : Int)) := by omega
  simp [glfwGetMouseButton, hinit, hr, hw, hb, hv]

theorem glfwSetMousePos_same (s : State) (window : GLFWwindow) (w : Window) (x y : Int)
    (hinit : s._glfwInitialized = true) (hw : s.deref window = some w)
    (hx : x = w.mousePosX) (hy : y = w.mousePosY) :
    glfwSetMousePos window x y s = some s := by
  simp [glfwSetMousePos, hinit, hw, hx, hy]

theorem glfwSetMousePos_locked (s : State) (window : GLFWwindow) (w : Window) (x y : Int)
    (hinit : s._glfwInitialized = true) (hw : s.deref window = some w)
    (hne : ¬ (x = w.mousePosX ∧ y = w.mousePosY)) (hlock : s.cursorLockWindow = window) :
    glfwSetMousePos window x y s
      = some (s.store window { w with mousePosX := x, mousePosY := y }) := by
  simp only [glfwSetMousePos, hinit, hw]
  simp [hne, State.store, hlock]

theorem glfwSetMousePos_free (s : State) (window : GLFWwindow) (w : Window) (x y : Int)
    (hinit : s._glfwInitialized = true) (hw : s.deref window = some w)
    (hne : ¬ (x = w.mousePosX ∧ y = w.mousePosY)) (hlock : s.cursorLockWindow ≠ window) :
    glfwSetMousePos window x y s
      = some (_glfwPlatformSetMouseCursorPos window x y
          (s.store window { w with mousePosX := x, mousePosY := y })) := by
  simp only [glfwSetMousePos, hinit, hw]
  simp [hne, State.store, hlock]

theorem index_in_range (tbl : List TriState) (n : Nat) (i : Int)
    (hlen : tbl.length = n + 1) (h0 : 0 ≤ i) (hi : i ≤ (n : Int)) :
    ∃ v, index tbl i = some v := by
  have hlt : i.toNat < tbl.length := by omega
  exact ⟨tbl[i.toNat], by simp [index, h0, List.getElem?_eq_getElem hlt]⟩

theorem glfwGetKey_cases (keyLast : Nat) (s : State) (window : GLFWwindow) (w : Window)
    (key : Int) (hw : s.deref window = some w) (hlen : w.key.length = keyLast + 1) :
    (s._glfwInitialized = false ∧
      glfwGetKey keyLast window key s
        = some (TriState.GLFW_RELEASE, _glfwSetError ErrorCode.GLFW_NOT_INITIALIZED s)) ∨
    (s._glfwInitialized = true ∧ (key < 0 ∨ (keyLast : Int) < key) ∧
      glfwGetKey keyLast window key s
        = some (TriState.GLFW_RELEASE, _glfwSetError ErrorCode.GLFW_INVALID_VALUE s)) ∨
    (s._glfwInitialized = true ∧ 0 ≤ key ∧ key ≤ (keyLast : Int) ∧
      index w.key key = some TriState.GLFW_STICK ∧
      glfwGetKey keyLast window key s
        = some (TriState.GLFW_PRESS,
            s.store window { w with key := w.key.set key.toNat TriState.GLFW_RELEASE })) ∨
    (s._glfwInitialized = true ∧ 0 ≤ key ∧ key ≤ (keyLast : Int) ∧
      ∃ v, v ≠ TriState.GLFW_STICK ∧ index w.key key = some v ∧
        glfwGetKey keyLast window key s = some (v, s)) := by
  by_cases hinit : s._glfwInitialized = true
  · by_cases hr : key < 0 ∨ (keyLast : Int) < key
    · right; left
      exact ⟨hinit, hr, by simp [glfwGetKey, hinit, hr]⟩
    · have h0 : 0 ≤ key := by omega
      have hhi : key ≤ (keyLast : Int) := by omega
      obtain ⟨v, hv⟩ := index_in_range w.key keyLast key hlen h0 hhi
      by_cases hs : v = TriState.GLFW_STICK
      · subst hs
        right; right; left
        exact ⟨hinit, h0, hhi, hv, glfwGetKey_stick keyLast s window w key hinit hw hhi hv⟩
      · right; right; right
        exact ⟨hinit, h0, hhi, v, hs, hv,
          glfwGetKey_plain keyLast s window w key v hinit hw hhi hv hs⟩
  · left
    have hf : s._glfwInitialized = false := by simpa using hinit
    exact ⟨hf, by simp [glfwGetKey, hf]⟩

theorem glfwGetMouseButton_cases (buttonLast : Nat) (s : State) (window : GLFWwindow)
    (w : Window) (button : Int) (hw : s.deref window = some w)
    (hlen : w.mouseButton.length = buttonLast + 1) :
    (s._glfwInitialized = false ∧
      glfwGetMouseButton buttonLast window button s
        = some (TriState.GLFW_RELEASE, _glfwSetError ErrorCode.GLFW_NOT_INITIALIZED s)) ∨
    (s._glfwInitialized = true ∧ (button < 0 ∨ (buttonLast : Int) < button) ∧
      glfwGetMouseButton buttonLast window button s
        = some (TriState.GLFW_RELEASE, _glfwSetError ErrorCode.GLFW_INVALID_ENUM s)) ∨
    (s._glfwInitialized = true ∧ 0 ≤ button ∧ button ≤ (buttonLast : Int) ∧
      index w.mouseButton button = some TriState.GLFW_STICK ∧
      glfwGetMouseButton buttonLast window button s
        = some (TriState.GLFW_PRESS,
            s.store window
              { w with mouseButton := w.mouseButton.set button.toNat TriState.GLFW_RELEASE })) ∨
    (s._glfwInitialized = true ∧ 0 ≤ button ∧ button ≤ (buttonLast : Int) ∧
      ∃ v, v ≠ TriState.GLFW_STICK ∧ index w.mouseButton button = some v ∧
        glfwGetMouseButton buttonLast window button s = some (v, s)) := by
  by_cases hinit : s._glfwInitialized = true
  · by_cases hr : button < 0 ∨ (buttonLast : Int) < button
    · right; left
      exact ⟨hinit, hr, by simp [glfwGetMouseButton, hinit, hr]⟩
    · have h0 : 0 ≤ button := by omega
      have hhi : button ≤ (buttonLast : Int) := by omega
      obtain ⟨v, hv⟩ := index_in_range w.mouseButton buttonLast button hlen h0 hhi
      by_cases hs : v = TriState.GLFW_STICK
      · subst hs
        right; right; left
        exact ⟨hinit, h0, hhi, hv,
          glfwGetMouseButton_stick buttonLast s window w button hinit hw hhi hv⟩
      · right; right; right
        exact ⟨hinit, h0, hhi, v, hs, hv,
          glfwGetMouseButton_plain buttonLast s window w button v hinit hw hhi hv hs⟩
  · left
    have hf : s._glfwInitialized = false := by simpa using hinit
    exact ⟨hf, by simp [glfwGetMouseButton, hf]⟩

theorem cursorOf_setError (e : ErrorCode) (s : State) (p : GLFWwindow) :
    cursorOf (_glfwSetError e s) p = cursorOf s p := rfl

theorem cursorOf_store (s : State) (window : GLFWwindow) (w w' : Window)
    (hw : s.deref window = some w) (hx : w'.mousePosX = w.mousePosX)
    (hy : w'.mousePosY = w.mousePosY) (p : GLFWwindow) :
    cursorOf (s.store window w') p = cursorOf s p := by
  by_cases hp : p = window
  · subst hp
    simp [cursorOf, deref_store_same s p w w' hw, hw, hx, hy]
  · unfold cursorOf State.deref State.store
    simp [Function.update_noteq hp]

theorem cursorOf_heap (s s' : State) (h : s'.heap = s.heap) (p : GLFWwindow) :
    cursorOf s' p = cursorOf s p := by
  simp [cursorOf, State.deref, h]

theorem not_initialized_eq (s : State) (h : ¬ s._glfwInitialized = true) :
    s._glfwInitialized = false := by
  simpa using h

theorem glfwSetMousePosCallback_shape (s : State) (window : GLFWwindow) (w : Window)
    (cbfun : GLFWmouseposfun) (hinit : s._glfwInitialized = true)
    (hw : s.deref window = some w) :
    ∃ s', glfwSetMousePosCallback window cbfun s = some s' ∧
      s'.heap = (s.store window { w with mousePosCallback := cbfun }).heap ∧
      s'._glfwInitialized = s._glfwInitialized ∧ s'.lastError = s.lastError ∧
      s'.cursorLockWindow = s.cursorLockWindow ∧
      s'.calls = s.calls ++
        (if cbfun ≠ NULL then [Call.mousePosFun cbfun window w.mousePosX w.mousePosY]
         else []) := by
  have hw1 := deref_store_same s window w { w with mousePosCallback := cbfun } hw
  by_cases hcb : cbfun = NULL
  · refine ⟨s.store window { w with mousePosCallback := cbfun }, ?_, rfl, rfl, rfl, rfl, ?_⟩
    · simp [glfwSetMousePosCallback, hinit, hw, hcb]
    · simp [hcb, State.store]
  · refine ⟨{ s.store window { w with mousePosCallback := cbfun } with
        calls := s.calls ++ [Call.mousePosFun cbfun window w.mousePosX w.mousePosY] },
      ?_, rfl, rfl, rfl, rfl, ?_⟩
    · simp only [glfwSetMousePosCallback, hinit, hw]
      simp [hcb, hw1]
      rfl
    · simp [hcb]

theorem glfwSetMouseWheelCallback_shape (s : State) (window : GLFWwindow) (w : Window)
    (cbfun : GLFWmousewheelfun) (hinit : s._glfwInitialized = true)
    (hw : s.deref window = some w) :
    ∃ s', glfwSetMouseWheelCallback window cbfun s = some s' ∧
      s'.heap = (s.store window { w with mouseWheelCallback := cbfun }).heap ∧
      s'._glfwInitialized = s._glfwInitialized ∧ s'.lastError = s.lastError ∧
      s'.cursorLockWindow = s.cursorLockWindow ∧
      s'.calls = s.calls ++
        (if cbfun ≠ NULL then [Call.mouseWheelFun cbfun window w.wheelPos] else []) := by
  have hw1 := deref_store_same s window w { w with mouseWheelCallback := cbfun } hw
  by_cases hcb : cbfun = NULL
  · refine ⟨s.store window { w with mouseWheelCallback := cbfun }, ?_, rfl, rfl, rfl, rfl, ?_⟩
    · simp [glfwSetMouseWheelCallback, hinit, hw, hcb]
    · simp [hcb, State.store]
  · refine ⟨{ s.store window { w with mouseWheelCallback := cbfun } with
        calls := s.calls ++ [Call.mouseWheelFun cbfun window w.wheelPos] },
      ?_, rfl, rfl, rfl, rfl, ?_⟩
    · simp only [glfwSetMouseWheelCallback, hinit, hw]
      simp [hcb, hw1]
      rfl
    · simp [hcb]

theorem heap_update_self (s : State) (window : GLFWwindow) (w : Window)
    (hw : s.deref window = some w) : Function.update s.heap window (some w) = s.heap := by
  have h : s.heap window = some w := by
    unfold State.deref at hw
    by_cases hn : window = NULL
    · simp [hn] at hw
    · simpa [hn] using hw
  rw [← h]
  exact Function.update_eq_self window s.heap

theorem run_outcome (keyLast buttonLast : Nat) (s : State) (op : Op) (w : Window)
    (hw : s.deref op.window = some w) (hsz : w.wellSized keyLast buttonLast) :
    ∃ s', op.run keyLast buttonLast s = some s' ∧
      ((s._glfwInitialized = false ∧ s' = _glfwSetError ErrorCode.GLFW_NOT_INITIALIZED s) ∨
       (s._glfwInitialized = true ∧ ∃ key : Int, op = Op.glfwGetKey op.window key ∧
          (key < 0 ∨ (keyLast : Int) < key) ∧
          s' = _glfwSetError ErrorCode.GLFW_INVALID_VALUE s) ∨
       (s._glfwInitialized = true ∧ ∃ button : Int,
          op = Op.glfwGetMouseButton op.window button ∧
          (button < 0 ∨ (buttonLast : Int) < button) ∧
          s' = _glfwSetError ErrorCode.GLFW_INVALID_ENUM s) ∨
       (s._glfwInitialized = true ∧ ∃ key : Int, op = Op.glfwGetKey op.window key ∧
          0 ≤ key ∧ key ≤ (keyLast : Int) ∧ index w.key key = some TriState.GLFW_STICK ∧
          s' = s.store op.window
            { w with key := w.key.set key.toNat TriState.GLFW_RELEASE }) ∨
       (s._glfwInitialized = true ∧ ∃ button : Int,
          op = Op.glfwGetMouseButton op.window button ∧
          0 ≤ button ∧ button ≤ (buttonLast : Int) ∧
          index w.mouseButton button = some TriState.GLFW_STICK ∧
          s' = s.store op.window
            { w with mouseButton := w.mouseButton.set button.toNat TriState.GLFW_RELEASE }) ∨
       (s._glfwInitialized = true ∧
          (∀ key : Int, op = Op.glfwGetKey op.window key → 0 ≤ key ∧ key ≤ (keyLast : Int)) ∧
          (∀ button : Int, op = Op.glfwGetMouseButton op.window button →
            0 ≤ button ∧ button ≤ (buttonLast : Int)) ∧
          ∃ w', w'.key = w.key ∧ w'.mouseButton = w.mouseButton ∧
            s'.heap = Function.update s.heap op.window (some w') ∧
            s'.lastError = s.lastError)) := by
  cases op with
  | glfwGetKey window key =>
    have hw1 : s.deref window = some w := hw
    rcases glfwGetKey_cases keyLast s window w key hw hsz.1 with
      ⟨hi, h⟩ | ⟨hi, hr, h⟩ | ⟨hi, h0, hhi, hk, h⟩ | ⟨hi, h0, hhi, v, -, -, h⟩
    · exact ⟨_glfwSetError ErrorCode.GLFW_NOT_INITIALIZED s, by simp [Op.run, h],
        Or.inl ⟨hi, rfl⟩⟩
    · exact ⟨_glfwSetError ErrorCode.GLFW_INVALID_VALUE s, by simp [Op.run, h],
        Or.inr (Or.inl ⟨hi, key, rfl, hr, rfl⟩)⟩
    · exact ⟨s.store window { w with key := w.key.set key.toNat TriState.GLFW_RELEASE },
        by simp [Op.run, h], Or.inr (Or.inr (Or.inr (Or.inl ⟨hi, key, rfl, h0, hhi, hk, rfl⟩)))⟩
    · refine ⟨s, by simp [Op.run, h],
        Or.inr (Or.inr (Or.inr (Or.inr (Or.inr ⟨hi, ?_, ?_, w, rfl, rfl,
          (heap_update_self s window w hw1).symm, rfl⟩))))⟩
      · intro key' hk'
        cases hk'
        exact ⟨h0, hhi⟩
      · intro button hb
        cases hb
  | glfwGetMouseButton window button =>
    have hw1 : s.deref window = some w := hw
    rcases glfwGetMouseButton_cases buttonLast s window w button hw hsz.2 with
      ⟨hi, h⟩ | ⟨hi, hr, h⟩ | ⟨hi, h0, hhi, hk, h⟩ | ⟨hi, h0, hhi, v, -, -, h⟩
    · exact ⟨_glfwSetError ErrorCode.GLFW_NOT_INITIALIZED s, by simp [Op.run, h],
        Or.inl ⟨hi, rfl⟩⟩
    · exact ⟨_glfwSetError ErrorCode.GLFW_INVALID_ENUM s, by simp [Op.run, h],
        Or.inr (Or.inr (Or.inl ⟨hi, button, rfl, hr, rfl⟩))⟩
    · exact ⟨s.store window
          { w with mouseButton := w.mouseButton.set button.toNat TriState.GLFW_RELEASE },
        by simp [Op.run, h],
        Or.inr (Or.inr (Or.inr (Or.inr (Or.inl ⟨hi, button, rfl, h0, hhi, hk, rfl⟩))))⟩
    · refine ⟨s, by simp [Op.run, h],
        Or.inr (Or.inr (Or.inr (Or.inr (Or.inr ⟨hi, ?_, ?_, w, rfl, rfl,
          (heap_update_self s window w hw1).symm, rfl⟩))))⟩
      · intro key hk
        cases hk
      · intro button' hb'
        cases hb'
        exact ⟨h0, hhi⟩
  | glfwGetMousePos window xpos ypos =>
    have hw1 : s.deref window = some w := hw
    by_cases hinit : s._glfwInitialized = true
    · have hrun : (Op.glfwGetMousePos window xpos ypos).run keyLast buttonLast s = some s := by
        by_cases hx : xpos = NULL <;> by_cases hy : ypos = NULL <;>
          simp [Op.run, GLFW.glfwGetMousePos, hinit, hw1, hx, hy]
      refine ⟨s, hrun, ?_⟩
      refine Or.inr (Or.inr (Or.inr (Or.inr (Or.inr
        ⟨hinit, ?_, ?_, w, rfl, rfl, (heap_update_self s window w hw1).symm, rfl⟩))))
      · intro key hk
        cases hk
      · intro button hb
        cases hb
    · exact ⟨_glfwSetError ErrorCode.GLFW_NOT_INITIALIZED s,
        by simp [Op.run, GLFW.glfwGetMousePos, hinit], Or.inl ⟨not_initialized_eq s hinit, rfl⟩⟩
  | glfwSetMousePos window xpos ypos =>
    have hw1 : s.deref window = some w := hw
    by_cases hinit : s._glfwInitialized = true
    · by_cases hsame : xpos = w.mousePosX ∧ ypos = w.mousePosY
      · refine ⟨s, glfwSetMousePos_same s window w xpos ypos hinit hw1 hsame.1 hsame.2, ?_⟩
        refine Or.inr (Or.inr (Or.inr (Or.inr (Or.inr
          ⟨hinit, ?_, ?_, w, rfl, rfl, (heap_update_self s window w hw1).symm, rfl⟩))))
        · intro key hk
          cases hk
        · intro button hb
          cases hb
      · by_cases hlock : s.cursorLockWindow = window
        · refine ⟨_, glfwSetMousePos_locked s window w xpos ypos hinit hw1 hsame hlock, ?_⟩
          refine Or.inr (Or.inr (Or.inr (Or.inr (Or.inr
            ⟨hinit, ?_, ?_, { w with mousePosX := xpos, mousePosY := ypos }, rfl, rfl, rfl, rfl⟩))))
          · intro key hk
            cases hk
          · intro button hb
            cases hb
        · refine ⟨_, glfwSetMousePos_free s window w xpos ypos hinit hw1 hsame hlock, ?_⟩
          refine Or.inr (Or.inr (Or.inr (Or.inr (Or.inr
            ⟨hinit, ?_, ?_, { w with mousePosX := xpos, mousePosY := ypos }, rfl, rfl, rfl, rfl⟩))))
          · intro key hk
            cases hk
          · intro button hb
            cases hb
    · exact ⟨_glfwSetError ErrorCode.GLFW_NOT_INITIALIZED s,
        by simp [Op.run, GLFW.glfwSetMousePos, hinit], Or.inl ⟨not_initialized_eq s hinit, rfl⟩⟩
  | glfwGetMouseWheel window =>
    have hw1 : s.deref window = some w := hw
    by_cases hinit : s._glfwInitialized = true
    · refine ⟨s, by simp [Op.run, GLFW.glfwGetMouseWheel, hinit, hw1], ?_⟩
      refine Or.inr (Or.inr (Or.inr (Or.inr (Or.inr
        ⟨hinit, ?_, ?_, w, rfl, rfl, (heap_update_self s window w hw1).symm, rfl⟩))))
      · intro key hk
        cases hk
      · intro button hb
        cases hb
    · exact ⟨_glfwSetError ErrorCode.GLFW_NOT_INITIALIZED s,
        by simp [Op.run, GLFW.glfwGetMouseWheel, hinit], Or.inl ⟨not_initialized_eq s hinit, rfl⟩⟩
  | glfwSetMouseWheel window pos =>
    have hw1 : s.deref window = some w := hw
    by_cases hinit : s._glfwInitialized = true
    · refine ⟨s.store window { w with wheelPos := pos },
        by simp [Op.run, GLFW.glfwSetMouseWheel, hinit, hw1], ?_⟩
      refine Or.inr (Or.inr (Or.inr (Or.inr (Or.inr
        ⟨hinit, ?_, ?_, { w with wheelPos := pos }, rfl, rfl, rfl, rfl⟩))))
      · intro key hk
        cases hk
      · intro button hb
        cases hb
    · exact ⟨_glfwSetError ErrorCode.GLFW_NOT_INITIALIZED s,
        by simp [Op.run, GLFW.glfwSetMouseWheel, hinit], Or.inl ⟨not_initialized_eq s hinit, rfl⟩⟩
  | glfwSetKeyCallback window cbfun =>
    have hw1 : s.deref window = some w := hw
    by_cases hinit : s._glfwInitialized = true
    · refine ⟨s.store window { w with keyCallback := cbfun },
        by simp [Op.run, GLFW.glfwSetKeyCallback, hinit, hw1], ?_⟩
      refine Or.inr (Or.inr (Or.inr (Or.inr (Or.inr
        ⟨hinit, ?_, ?_, { w with keyCallback := cbfun }, rfl, rfl, rfl, rfl⟩))))
      · intro key hk
        cases hk
      · intro button hb
        cases hb
    · exact ⟨_glfwSetError ErrorCode.GLFW_NOT_INITIALIZED s,
        by simp [Op.run, GLFW.glfwSetKeyCallback, hinit], Or.inl ⟨not_initialized_eq s hinit, rfl⟩⟩
  | glfwSetCharCallback window cbfun =>
    have hw1 : s.deref window = some w := hw
    by_cases hinit : s._glfwInitialized = true
    · refine ⟨s.store window { w with charCallback := cbfun },
        by simp [Op.run, GLFW.glfwSetCharCallback, hinit, hw1], ?_⟩
      refine Or.inr (Or.inr (Or.inr (Or.inr (Or.inr
        ⟨hinit, ?_, ?_, { w with charCallback := cbfun }, rfl, rfl, rfl, rfl⟩))))
      · intro key hk
        cases hk
      · intro button hb
        cases hb
    · exact ⟨_glfwSetError ErrorCode.GLFW_NOT_INITIALIZED s,
        by simp [Op.run, GLFW.glfwSetCharCallback, hinit], Or.inl ⟨not_initialized_eq s hinit, rfl⟩⟩
  | glfwSetMouseButtonCallback window cbfun =>
    have hw1 : s.deref window = some w := hw
    by_cases hinit : s._glfwInitialized = true
    · refine ⟨s.store window { w with mouseButtonCallback := cbfun },
        by simp [Op.run, GLFW.glfwSetMouseButtonCallback, hinit, hw1], ?_⟩
      refine Or.inr (Or.inr (Or.inr (Or.inr (Or.inr
        ⟨hinit, ?_, ?_, { w with mouseButtonCallback := cbfun }, rfl, rfl, rfl, rfl⟩))))
      · intro key hk
        cases hk
      · intro button hb
        cases hb
    · exact ⟨_glfwSetError ErrorCode.GLFW_NOT_INITIALIZED s,
        by simp [Op.run, GLFW.glfwSetMouseButtonCallback, hinit], Or.inl ⟨not_initialized_eq s hinit, rfl⟩⟩
  | glfwSetMousePosCallback window cbfun =>
    have hw1 : s.deref window = some w := hw
    by_cases hinit : s._glfwInitialized = true
    · obtain ⟨s', h, hd, -, he, -, -⟩ := glfwSetMousePosCallback_shape s window w cbfun hinit hw1
      refine ⟨s', h, ?_⟩
      refine Or.inr (Or.inr (Or.inr (Or.inr (Or.inr
        ⟨hinit, ?_, ?_, { w with mousePosCallback := cbfun }, rfl, rfl, hd, he⟩))))
      · intro key hk
        cases hk
      · intro button hb
        cases hb
    · exact ⟨_glfwSetError ErrorCode.GLFW_NOT_INITIALIZED s,
        by simp [Op.run, GLFW.glfwSetMousePosCallback, hinit], Or.inl ⟨not_initialized_eq s hinit, rfl⟩⟩
  | glfwSetMouseWheelCallback window cbfun =>
    have hw1 : s.deref window = some w := hw
    by_cases hinit : s._glfwInitialized = true
    · obtain ⟨s', h, hd, -, he, -, -⟩ := glfwSetMouseWheelCallback_shape s window w cbfun hinit hw1
      refine ⟨s', h, ?_⟩
      refine Or.inr (Or.inr (Or.inr (Or.inr (Or.inr
        ⟨hinit, ?_, ?_, { w with mouseWheelCallback := cbfun }, rfl, rfl, hd, he⟩))))
      · intro key hk
        cases hk
      · intro button hb
        cases hb
    · exact ⟨_glfwSetError ErrorCode.GLFW_NOT_INITIALIZED s,
        by simp [Op.run, GLFW.glfwSetMouseWheelCallback, hinit], Or.inl ⟨not_initialized_eq s hinit, rfl⟩⟩

theorem deref_of_heap_update (s s' : State) (window : GLFWwindow) (w w' : Window)
    (hw : s.deref window = some w) (hh : s'.heap = Function.update s.heap window (some w'))
    (p : GLFWwindow) :
    s'.deref p = if p = window then some w' else s.deref p := by
  have hn : window ≠ NULL := by
    intro hn
    simp [State.deref, hn] at hw
  by_cases hp : p = window
  · subst hp
    simp [State.deref, hn, hh]
  · simp [State.deref, hh, Function.update_noteq hp, hp]

theorem slotSteps_of_tables (op : Op) (s s' : State)
    (h : ∀ (p : GLFWwindow) (wp : Window), s.deref p = some wp →
      ∃ wp', s'.deref p = some wp' ∧ wp'.key = wp.key ∧ wp'.mouseButton = wp.mouseButton) :
    SlotSteps op s s' := by
  intro p wp hp
  obtain ⟨wp', h1, h2, h3⟩ := h p wp hp
  exact ⟨wp', h1, fun i => Or.inl (by rw [h2]), fun i => Or.inl (by rw [h3])⟩

theorem tables_of_heap_update (s s' : State) (window : GLFWwindow) (w w' : Window)
    (hw : s.deref window = some w) (hh : s'.heap = Function.update s.heap window (some w'))
    (hk : w'.key = w.key) (hb : w'.mouseButton = w.mouseButton)
    (p : GLFWwindow) (wp : Window) (hp : s.deref p = some wp) :
    ∃ wp', s'.deref p = some wp' ∧ wp'.key = wp.key ∧ wp'.mouseButton = wp.mouseButton := by
  rw [deref_of_heap_update s s' window w w' hw hh p]
  by_cases hpw : p = window
  · subst hpw
    have hwp : wp = w := by
      rw [hw] at hp
      exact (Option.some.inj hp).symm
    subst hwp
    exact ⟨w', by simp, hk, hb⟩
  · exact ⟨wp, by simp [hpw, hp], rfl, rfl⟩

theorem slotStep_keeps_set (before after : Option TriState) (named : Prop) (v : TriState)
    (h : slotStep before after named) (hv : v ≠ TriState.GLFW_RELEASE)
    (ha : after = some v) : before = some v := by
  rcases h with h | ⟨-, h, -⟩
  · rw [← h, ha]
  · rw [ha] at h
    exact absurd (Option.some.inj h) hv

theorem glfwGetMousePos_read (s : State) (window : GLFWwindow) (w : Window)
    (xpos ypos : Nat) (hinit : s._glfwInitialized = true) (hw : s.deref window = some w) :
    glfwGetMousePos window xpos ypos s
      = some ((if xpos ≠ NULL then some w.mousePosX else none,
               if ypos ≠ NULL then some w.mousePosY else none), s) := by
  by_cases hx : xpos = NULL <;> by_cases hy : ypos = NULL <;>
    simp [glfwGetMousePos, hinit, hw, hx, hy]

theorem not_stick_cases (v : TriState) (h : v ≠ TriState.GLFW_STICK) :
    v = TriState.GLFW_RELEASE ∨ v = TriState.GLFW_PRESS := by
  cases v
  · exact Or.inl rfl
  · exact Or.inr rfl
  · exact absurd rfl h

/-! ## The claims -/

/-- C1: on an uninitialised library each of the eleven operations, for every
state and every argument (out-of-range codes, dangling windows and non-null
callbacks included), returns its neutral value (`GLFW_RELEASE`, 0, no output
written) and a state that differs from the one before only in the last-error
slot, which holds `GLFW_NOT_INITIALIZED` and no other kind: no window record
changes and no hook or callback is called. -/
theorem uninitialized_calls_fail (keyLast buttonLast : Nat) (s : State)
    (window : GLFWwindow) (key button x y pos : Int) (xpos ypos : Nat)
    (kf : GLFWkeyfun) (cf : GLFWcharfun) (bf : GLFWmousebuttonfun)
    (pf : GLFWmouseposfun) (wf : GLFWmousewheelfun)
    (hinit : s._glfwInitialized = false) :
    NotInitializedOutcome s (_glfwSetError ErrorCode.GLFW_NOT_INITIALIZED s) ∧
    (_glfwSetError ErrorCode.GLFW_NOT_INITIALIZED s).lastError
      ≠ some ErrorCode.GLFW_INVALID_VALUE ∧
    (_glfwSetError ErrorCode.GLFW_NOT_INITIALIZED s).lastError
      ≠ some ErrorCode.GLFW_INVALID_ENUM ∧
    glfwGetKey keyLast window key s
      = some (TriState.GLFW_RELEASE, _glfwSetError ErrorCode.GLFW_NOT_INITIALIZED s) ∧
    glfwGetMouseButton buttonLast window button s
      = some (TriState.GLFW_RELEASE, _glfwSetError ErrorCode.GLFW_NOT_INITIALIZED s) ∧
    glfwGetMousePos window xpos ypos s
      = some ((none, none), _glfwSetError ErrorCode.GLFW_NOT_INITIALIZED s) ∧
    glfwSetMousePos window x y s = some (_glfwSetError ErrorCode.GLFW_NOT_INITIALIZED s) ∧
    glfwGetMouseWheel window s = some (0, _glfwSetError ErrorCode.GLFW_NOT_INITIALIZED s) ∧
    glfwSetMouseWheel window pos s = some (_glfwSetError ErrorCode.GLFW_NOT_INITIALIZED s) ∧
    glfwSetKeyCallback window kf s = some (_glfwSetError ErrorCode.GLFW_NOT_INITIALIZED s) ∧
    glfwSetCharCallback window cf s = some (_glfwSetError ErrorCode.GLFW_NOT_INITIALIZED s) ∧
    glfwSetMouseButtonCallback window bf s
      = some (_glfwSetError ErrorCode.GLFW_NOT_INITIALIZED s) ∧
    glfwSetMousePosCallback window pf s
      = some (_glfwSetError ErrorCode.GLFW_NOT_INITIALIZED s) ∧
    glfwSetMouseWheelCallback window wf s
      = some (_glfwSetError ErrorCode.GLFW_NOT_INITIALIZED s) := by
  refine ⟨?_, ?_, ?_, ?_, ?_, ?_, ?_, ?_, ?_, ?_, ?_, ?_, ?_, ?_⟩
  · simp [NotInitializedOutcome, _glfwSetError]
  · simp [_glfwSetError]
  · simp [_glfwSetError]
  · simp [glfwGetKey, hinit]
  · simp [glfwGetMouseButton, hinit]
  · simp [glfwGetMousePos, hinit]
  · simp [glfwSetMousePos, hinit]
  · simp [glfwGetMouseWheel, hinit]
  · simp [glfwSetMouseWheel, hinit]
  · simp [glfwSetKeyCallback, hinit]
  · simp [glfwSetCharCallback, hinit]
  · simp [glfwSetMouseButtonCallback, hinit]
  · simp [glfwSetMousePosCallback, hinit]
  · simp [glfwSetMouseWheelCallback, hinit]

/-- Witness of C1: the uninitialised sample state, key 99 and button -1 out
of range, non-null outputs and callbacks. -/
theorem uninitialized_calls_fail_witness :
    sampleUninit._glfwInitialized = false ∧
    (NotInitializedOutcome sampleUninit
        (_glfwSetError ErrorCode.GLFW_NOT_INITIALIZED sampleUninit) ∧
    (_glfwSetError ErrorCode.GLFW_NOT_INITIALIZED sampleUninit).lastError
      ≠ some ErrorCode.GLFW_INVALID_VALUE ∧
    (_glfwSetError ErrorCode.GLFW_NOT_INITIALIZED sampleUninit).lastError
      ≠ some ErrorCode.GLFW_INVALID_ENUM ∧
    glfwGetKey 3 1 99 sampleUninit
      = some (TriState.GLFW_RELEASE, _glfwSetError ErrorCode.GLFW_NOT_INITIALIZED sampleUninit) ∧
    glfwGetMouseButton 1 1 (-1) sampleUninit
      = some (TriState.GLFW_RELEASE, _glfwSetError ErrorCode.GLFW_NOT_INITIALIZED sampleUninit) ∧
    glfwGetMousePos 1 7 8 sampleUninit
      = some ((none, none), _glfwSetError ErrorCode.GLFW_NOT_INITIALIZED sampleUninit) ∧
    glfwSetMousePos 1 10 20 sampleUninit
      = some (_glfwSetError ErrorCode.GLFW_NOT_INITIALIZED sampleUninit) ∧
    glfwGetMouseWheel 1 sampleUninit
      = some (0, _glfwSetError ErrorCode.GLFW_NOT_INITIALIZED sampleUninit) ∧
    glfwSetMouseWheel 1 (-6) sampleUninit
      = some (_glfwSetError ErrorCode.GLFW_NOT_INITIALIZED sampleUninit) ∧
    glfwSetKeyCallback 1 21 sampleUninit
      = some (_glfwSetError ErrorCode.GLFW_NOT_INITIALIZED sampleUninit) ∧
    glfwSetCharCallback 1 22 sampleUninit
      = some (_glfwSetError ErrorCode.GLFW_NOT_INITIALIZED sampleUninit) ∧
    glfwSetMouseButtonCallback 1 23 sampleUninit
      = some (_glfwSetError ErrorCode.GLFW_NOT_INITIALIZED sampleUninit) ∧
    glfwSetMousePosCallback 1 24 sampleUninit
      = some (_glfwSetError ErrorCode.GLFW_NOT_INITIALIZED sampleUninit) ∧
    glfwSetMouseWheelCallback 1 25 sampleUninit
      = some (_glfwSetError ErrorCode.GLFW_NOT_INITIALIZED sampleUninit)) :=
  ⟨rfl, uninitialized_calls_fail 3 1 sampleUninit 1 99 (-1) 10 20 (-6) 7 8 21 22 23 24 25 rfl⟩

/-- C2: on an initialised library, for every state, every window handle and
every key code below 0 or above `GLFW_KEY_LAST`, `glfwGetKey` returns
`GLFW_RELEASE`; the state after differs from the state before only in the
last-error slot, which holds `GLFW_INVALID_VALUE`: every window record (key
slots, button slots, cursor, wheel, callbacks) is as before. -/
theorem glfwGetKey_invalid_key (keyLast : Nat) (s : State) (window : GLFWwindow) (key : Int)
    (hinit : s._glfwInitialized = true) (hkey : key < 0 ∨ (keyLast : Int) < key) :
    ∃ s', glfwGetKey keyLast window key s = some (TriState.GLFW_RELEASE, s') ∧
      s'.lastError = some ErrorCode.GLFW_INVALID_VALUE ∧
      s'.heap = s.heap ∧ s'.calls = s.calls ∧
      s'._glfwInitialized = s._glfwInitialized ∧
      s'.cursorLockWindow = s.cursorLockWindow := by
  refine ⟨_glfwSetError ErrorCode.GLFW_INVALID_VALUE s, ?_, rfl, rfl, rfl, rfl, rfl⟩
  simp [glfwGetKey, hinit, hkey]

/-- Witness of C2: key 4 with `GLFW_KEY_LAST = 3` on the sample state. -/
theorem glfwGetKey_invalid_key_witness :
    sampleState._glfwInitialized = true ∧ ((4 : Int) < 0 ∨ ((3 : Nat) : Int) < 4) ∧
    ∃ s', glfwGetKey 3 1 4 sampleState = some (TriState.GLFW_RELEASE, s') ∧
      s'.lastError = some ErrorCode.GLFW_INVALID_VALUE ∧
      s'.heap = sampleState.heap ∧ s'.calls = sampleState.calls ∧
      s'._glfwInitialized = sampleState._glfwInitialized ∧
      s'.cursorLockWindow = sampleState.cursorLockWindow :=
  ⟨rfl, by decide, glfwGetKey_invalid_key 3 sampleState 1 4 rfl (by decide)⟩

/-- C3: on an initialised library, for every state, every window handle and
every button code below 0 or above `GLFW_MOUSE_BUTTON_LAST`,
`glfwGetMouseButton` returns `GLFW_RELEASE`; the state after differs from the
state before only in the last-error slot, which holds `GLFW_INVALID_ENUM`, a
kind other than the `GLFW_INVALID_VALUE` of `glfwGetKey`. -/
theorem glfwGetMouseButton_invalid_button (buttonLast : Nat) (s : State) (window : GLFWwindow)
    (button : Int) (hinit : s._glfwInitialized = true)
    (hbutton : button < 0 ∨ (buttonLast : Int) < button) :
    ∃ s', glfwGetMouseButton buttonLast window button s = some (TriState.GLFW_RELEASE, s') ∧
      s'.lastError = some ErrorCode.GLFW_INVALID_ENUM ∧
      s'.lastError ≠ some ErrorCode.GLFW_INVALID_VALUE ∧
      s'.heap = s.heap ∧ s'.calls = s.calls ∧
      s'._glfwInitialized = s._glfwInitialized ∧
      s'.cursorLockWindow = s.cursorLockWindow := by
  refine ⟨_glfwSetError ErrorCode.GLFW_INVALID_ENUM s, ?_, rfl, ?_, rfl, rfl, rfl, rfl⟩
  · simp [glfwGetMouseButton, hinit, hbutton]
  · simp [_glfwSetError]

/-- Witness of C3: button -1 with `GLFW_MOUSE_BUTTON_LAST = 1` on the sample
state. -/
theorem glfwGetMouseButton_invalid_button_witness :
    sampleState._glfwInitialized = true ∧ ((-1 : Int) < 0 ∨ ((1 : Nat) : Int) < -1) ∧
    ∃ s', glfwGetMouseButton 1 1 (-1) sampleState = some (TriState.GLFW_RELEASE, s') ∧
      s'.lastError = some ErrorCode.GLFW_INVALID_ENUM ∧
      s'.lastError ≠ some ErrorCode.GLFW_INVALID_VALUE ∧
      s'.heap = sampleState.heap ∧ s'.calls = sampleState.calls ∧
      s'._glfwInitialized = sampleState._glfwInitialized ∧
      s'.cursorLockWindow = sampleState.cursorLockWindow :=
  ⟨rfl, by decide, glfwGetMouseButton_invalid_button 1 sampleState 1 (-1) rfl (by decide)⟩

/-- C4: sticky consumption. On an initialised library, for a valid window and
an in-range key code whose slot holds `GLFW_STICK`, the first `glfwGetKey`
returns `GLFW_PRESS` and leaves the slot at `GLFW_RELEASE`, and the second
`glfwGetKey` returns `GLFW_RELEASE` and leaves the slot at `GLFW_RELEASE`;
the same holds for `glfwGetMouseButton` and an in-range button code. -/
theorem sticky_consumed_by_first_read (keyLast buttonLast : Nat) (s : State)
    (window : GLFWwindow) (w : Window)
    (hinit : s._glfwInitialized = true) (hw : s.deref window = some w) :
    (∀ key : Int, 0 ≤ key → key ≤ (keyLast : Int) →
      index w.key key = some TriState.GLFW_STICK →
      ∃ s1 w1 s2 w2,
        glfwGetKey keyLast window key s = some (TriState.GLFW_PRESS, s1) ∧
        s1.deref window = some w1 ∧ index w1.key key = some TriState.GLFW_RELEASE ∧
        glfwGetKey keyLast window key s1 = some (TriState.GLFW_RELEASE, s2) ∧
        s2.deref window = some w2 ∧ index w2.key key = some TriState.GLFW_RELEASE) ∧
    (∀ button : Int, 0 ≤ button → button ≤ (buttonLast : Int) →
      index w.mouseButton button = some TriState.GLFW_STICK →
      ∃ s1 w1 s2 w2,
        glfwGetMouseButton buttonLast window button s = some (TriState.GLFW_PRESS, s1) ∧
        s1.deref window = some w1 ∧
        index w1.mouseButton button = some TriState.GLFW_RELEASE ∧
        glfwGetMouseButton buttonLast window button s1 = some (TriState.GLFW_RELEASE, s2) ∧
        s2.deref window = some w2 ∧
        index w2.mouseButton button = some TriState.GLFW_RELEASE) := by
  constructor
  · intro key _ hhi hk
    have hw1 := deref_store_same s window w
      { w with key := w.key.set key.toNat TriState.GLFW_RELEASE } hw
    have hk1 : index ({ w with key := w.key.set key.toNat TriState.GLFW_RELEASE } : Window).key
        key = some TriState.GLFW_RELEASE := index_set_same _ _ _ _ hk
    refine ⟨_, _, _, _, glfwGetKey_stick keyLast s window w key hinit hw hhi hk, hw1, hk1,
      glfwGetKey_plain keyLast _ window _ key _ ?_ hw1 hhi hk1 (by decide), hw1, hk1⟩
    exact hinit
  · intro button _ hhi hb
    have hw1 := deref_store_same s window w
      { w with mouseButton := w.mouseButton.set button.toNat TriState.GLFW_RELEASE } hw
    have hb1 : index
        ({ w with mouseButton := w.mouseButton.set button.toNat TriState.GLFW_RELEASE }
          : Window).mouseButton
        button = some TriState.GLFW_RELEASE := index_set_same _ _ _ _ hb
    refine ⟨_, _, _, _, glfwGetMouseButton_stick buttonLast s window w button hinit hw hhi hb,
      hw1, hb1,
      glfwGetMouseButton_plain buttonLast _ window _ button _ ?_ hw1 hhi hb1 (by decide),
      hw1, hb1⟩
    exact hinit

/-- Witness of C4: key 2 and button 0 of the sample window are sticky. -/
theorem sticky_consumed_by_first_read_witness :
    (sampleState._glfwInitialized = true ∧ sampleState.deref 1 = some sampleWindow ∧
      (0 : Int) ≤ 2 ∧ (2 : Int) ≤ ((3 : Nat) : Int) ∧
      index sampleWindow.key 2 = some TriState.GLFW_STICK ∧
      (0 : Int) ≤ 0 ∧ (0 : Int) ≤ ((1 : Nat) : Int) ∧
      index sampleWindow.mouseButton 0 = some TriState.GLFW_STICK) ∧
    (∃ s1 w1 s2 w2,
        glfwGetKey 3 1 2 sampleState = some (TriState.GLFW_PRESS, s1) ∧
        s1.deref 1 = some w1 ∧ index w1.key 2 = some TriState.GLFW_RELEASE ∧
        glfwGetKey 3 1 2 s1 = some (TriState.GLFW_RELEASE, s2) ∧
        s2.deref 1 = some w2 ∧ index w2.key 2 = some TriState.GLFW_RELEASE) ∧
    (∃ s1 w1 s2 w2,
        glfwGetMouseButton 1 1 0 sampleState = some (TriState.GLFW_PRESS, s1) ∧
        s1.deref 1 = some w1 ∧ index w1.mouseButton 0 = some TriState.GLFW_RELEASE ∧
        glfwGetMouseButton 1 1 0 s1 = some (TriState.GLFW_RELEASE, s2) ∧
        s2.deref 1 = some w2 ∧ index w2.mouseButton 0 = some TriState.GLFW_RELEASE) :=
  ⟨⟨rfl, by decide, by decide, by decide, by decide, by decide, by decide, by decide⟩,
   (sticky_consumed_by_first_read 3 1 sampleState 1 sampleWindow rfl (by decide)).1 2
      (by decide) (by decide) (by decide),
   (sticky_consumed_by_first_read 3 1 sampleState 1 sampleWindow rfl (by decide)).2 0
      (by decide) (by decide) (by decide)⟩

/-- C5: on an initialised library, for a valid window and a key code in
`[0, GLFW_KEY_LAST]`: when the slot holds `GLFW_RELEASE` or `GLFW_PRESS`,
`glfwGetKey` returns the stored value and the whole state (window records,
last error, call trace) is the state before; when the slot holds
`GLFW_STICK`, the state after differs only in the key table of this window,
and there only in slot `key`: every other key slot, the button table, cursor,
wheel and callbacks, the other windows, the last error and the call trace are
as before. The same holds for `glfwGetMouseButton` over
`[0, GLFW_MOUSE_BUTTON_LAST]`. -/
theorem read_changes_only_sticky_slot (keyLast buttonLast : Nat) (s : State)
    (window : GLFWwindow) (w : Window)
    (hinit : s._glfwInitialized = true) (hw : s.deref window = some w) :
    (∀ (key : Int) (v : TriState), 0 ≤ key → key ≤ (keyLast : Int) →
      index w.key key = some v →
      ((v = TriState.GLFW_RELEASE ∨ v = TriState.GLFW_PRESS) →
        glfwGetKey keyLast window key s = some (v, s)) ∧
      (v = TriState.GLFW_STICK →
        ∃ s' w', glfwGetKey keyLast window key s = some (TriState.GLFW_PRESS, s') ∧
          s'.deref window = some w' ∧ SameOutside window s s' ∧ s'.calls = s.calls ∧
          w' = { w with key := w'.key } ∧ w'.key.length = w.key.length ∧
          ∀ j : Int, j ≠ key → index w'.key j = index w.key j)) ∧
    (∀ (button : Int) (v : TriState), 0 ≤ button → button ≤ (buttonLast : Int) →
      index w.mouseButton button = some v →
      ((v = TriState.GLFW_RELEASE ∨ v = TriState.GLFW_PRESS) →
        glfwGetMouseButton buttonLast window button s = some (v, s)) ∧
      (v = TriState.GLFW_STICK →
        ∃ s' w', glfwGetMouseButton buttonLast window button s
            = some (TriState.GLFW_PRESS, s') ∧
          s'.deref window = some w' ∧ SameOutside window s s' ∧ s'.calls = s.calls ∧
          w' = { w with mouseButton := w'.mouseButton } ∧
          w'.mouseButton.length = w.mouseButton.length ∧
          ∀ j : Int, j ≠ button → index w'.mouseButton j = index w.mouseButton j)) := by
  constructor
  · intro key v h0 hhi hk
    constructor
    · intro hv
      apply glfwGetKey_plain keyLast s window w key v hinit hw hhi hk
      rcases hv with hv | hv <;> simp [hv]
    · intro hv
      subst hv
      refine ⟨_, _, glfwGetKey_stick keyLast s window w key hinit hw hhi hk,
        deref_store_same s window w _ hw, sameOutside_store window s _, rfl, rfl, ?_, ?_⟩
      · simp
      · intro j hj
        exact index_set_other w.key key j TriState.GLFW_RELEASE h0 hj
  · intro button v h0 hhi hb
    constructor
    · intro hv
      apply glfwGetMouseButton_plain buttonLast s window w button v hinit hw hhi hb
      rcases hv with hv | hv <;> simp [hv]
    · intro hv
      subst hv
      refine ⟨_, _, glfwGetMouseButton_stick buttonLast s window w button hinit hw hhi hb,
        deref_store_same s window w _ hw, sameOutside_store window s _, rfl, rfl, ?_, ?_⟩
      · simp
      · intro j hj
        exact index_set_other w.mouseButton button j TriState.GLFW_RELEASE h0 hj

/-- Witness of C5: key 1 of the sample window is pressed and key 2 sticky,
button 1 is pressed and button 0 sticky. -/
theorem read_changes_only_sticky_slot_witness :
    (sampleState._glfwInitialized = true ∧ sampleState.deref 1 = some sampleWindow ∧
      index sampleWindow.key 1 = some TriState.GLFW_PRESS ∧
      index sampleWindow.key 2 = some TriState.GLFW_STICK ∧
      index sampleWindow.mouseButton 1 = some TriState.GLFW_PRESS ∧
      index sampleWindow.mouseButton 0 = some TriState.GLFW_STICK) ∧
    glfwGetKey 3 1 1 sampleState = some (TriState.GLFW_PRESS, sampleState) ∧
    (∃ s' w', glfwGetKey 3 1 2 sampleState = some (TriState.GLFW_PRESS, s') ∧
      s'.deref 1 = some w' ∧ SameOutside 1 sampleState s' ∧ s'.calls = sampleState.calls ∧
      w' = { sampleWindow with key := w'.key } ∧ w'.key.length = sampleWindow.key.length ∧
      ∀ j : Int, j ≠ 2 → index w'.key j = index sampleWindow.key j) ∧
    glfwGetMouseButton 1 1 1 sampleState = some (TriState.GLFW_PRESS, sampleState) ∧
    (∃ s' w', glfwGetMouseButton 1 1 0 sampleState = some (TriState.GLFW_PRESS, s') ∧
      s'.deref 1 = some w' ∧ SameOutside 1 sampleState s' ∧ s'.calls = sampleState.calls ∧
      w' = { sampleWindow with mouseButton := w'.mouseButton } ∧
      w'.mouseButton.length = sampleWindow.mouseButton.length ∧
      ∀ j : Int, j ≠ 0 → index w'.mouseButton j = index sampleWindow.mouseButton j) :=
  ⟨⟨rfl, by decide, by decide, by decide, by decide, by decide⟩,
   ((read_changes_only_sticky_slot 3 1 sampleState 1 sampleWindow rfl (by decide)).1 1
      TriState.GLFW_PRESS (by decide) (by decide) (by decide)).1 (Or.inr rfl),
   ((read_changes_only_sticky_slot 3 1 sampleState 1 sampleWindow rfl (by decide)).1 2
      TriState.GLFW_STICK (by decide) (by decide) (by decide)).2 rfl,
   ((read_changes_only_sticky_slot 3 1 sampleState 1 sampleWindow rfl (by decide)).2 1
      TriState.GLFW_PRESS (by decide) (by decide) (by decide)).1 (Or.inr rfl),
   ((read_changes_only_sticky_slot 3 1 sampleState 1 sampleWindow rfl (by decide)).2 0
      TriState.GLFW_STICK (by decide) (by decide) (by decide)).2 rfl⟩

/-- C6: on an initialised library, for a valid window and (x, y) equal to its
stored cursor position, `glfwSetMousePos` returns the state it was given:
no window record changes, the call trace gains neither the platform hook nor
a callback (whoever holds the cursor lock), and the last error is as before. -/
theorem glfwSetMousePos_same_position_noop (s : State) (window : GLFWwindow) (w : Window)
    (x y : Int) (hinit : s._glfwInitialized = true) (hw : s.deref window = some w)
    (hx : x = w.mousePosX) (hy : y = w.mousePosY) :
    glfwSetMousePos window x y s = some s :=
  glfwSetMousePos_same s window w x y hinit hw hx hy

/-- Witness of C6: position (3, 4) on the sample state, without and with the
cursor lock. -/
theorem glfwSetMousePos_same_position_noop_witness :
    (sampleState._glfwInitialized = true ∧ sampleState.deref 1 = some sampleWindow ∧
      (3 : Int) = sampleWindow.mousePosX ∧ (4 : Int) = sampleWindow.mousePosY ∧
      sampleLocked._glfwInitialized = true ∧ sampleLocked.deref 1 = some sampleWindow ∧
      sampleLocked.cursorLockWindow = 1) ∧
    glfwSetMousePos 1 3 4 sampleState = some sampleState ∧
    glfwSetMousePos 1 3 4 sampleLocked = some sampleLocked :=
  ⟨⟨rfl, by decide, by decide, by decide, rfl, by decide, rfl⟩,
   glfwSetMousePos_same_position_noop sampleState 1 sampleWindow 3 4 rfl (by decide)
      (by decide) (by decide),
   glfwSetMousePos_same_position_noop sampleLocked 1 sampleWindow 3 4 rfl (by decide)
      (by decide) (by decide)⟩

/-- C7: on an initialised library, for a valid window and (x, y) that differs
from the stored cursor position in at least one coordinate, `glfwSetMousePos`
leaves the window record with position exactly (x, y) and every other field
as before; the call trace gains the one call
`_glfwPlatformSetMouseCursorPos(window, x, y)` when the window is not the
cursor-lock holder and gains nothing when it is; nothing else of the state
changes. -/
theorem glfwSetMousePos_new_position (s : State) (window : GLFWwindow) (w : Window)
    (x y : Int) (hinit : s._glfwInitialized = true) (hw : s.deref window = some w)
    (hne : x ≠ w.mousePosX ∨ y ≠ w.mousePosY) :
    ∃ s', glfwSetMousePos window x y s = some s' ∧
      s'.deref window = some { w with mousePosX := x, mousePosY := y } ∧
      SameOutside window s s' ∧
      (s.cursorLockWindow ≠ window →
        s'.calls = s.calls ++ [Call.platformSetMouseCursorPos window x y]) ∧
      (s.cursorLockWindow = window → s'.calls = s.calls) := by
  have hne' : ¬ (x = w.mousePosX ∧ y = w.mousePosY) := by
    rintro ⟨h1, h2⟩
    rcases hne with h | h
    · exact h h1
    · exact h h2
  by_cases hlock : s.cursorLockWindow = window
  · refine ⟨_, glfwSetMousePos_locked s window w x y hinit hw hne' hlock,
      deref_store_same s window w _ hw, sameOutside_store window s _, ?_, ?_⟩
    · intro h
      exact absurd hlock h
    · intro _
      rfl
  · refine ⟨_, glfwSetMousePos_free s window w x y hinit hw hne' hlock,
      deref_store_same s window w _ hw, sameOutside_store window s _, ?_, ?_⟩
    · intro _
      rfl
    · intro h
      exact absurd h hlock

/-- Witness of C7: moving the sample window from (3, 4) to (3, 5), without the
cursor lock. -/
theorem glfwSetMousePos_new_position_witness :
    (sampleState._glfwInitialized = true ∧ sampleState.deref 1 = some sampleWindow ∧
      ((3 : Int) ≠ sampleWindow.mousePosX ∨ (5 : Int) ≠ sampleWindow.mousePosY)) ∧
    ∃ s', glfwSetMousePos 1 3 5 sampleState = some s' ∧
      s'.deref 1 = some { sampleWindow with mousePosX := 3, mousePosY := 5 } ∧
      SameOutside 1 sampleState s' ∧
      (sampleState.cursorLockWindow ≠ 1 →
        s'.calls = sampleState.calls ++ [Call.platformSetMouseCursorPos 1 3 5]) ∧
      (sampleState.cursorLockWindow = 1 → s'.calls = sampleState.calls) :=
  ⟨⟨rfl, by decide, by decide⟩,
   glfwSetMousePos_new_position sampleState 1 sampleWindow 3 5 rfl (by decide) (by decide)⟩

/-- C8: on an initialised library, for a valid window that is the cursor-lock
holder, whatever its stored position and whatever (x, y): after
`glfwSetMousePos(window, x, y)` the stored position is (x, y) and the call
trace is the trace before, so the platform hook was not called. -/
theorem glfwSetMousePos_lock_holder (s : State) (window : GLFWwindow) (w : Window)
    (x y : Int) (hinit : s._glfwInitialized = true) (hw : s.deref window = some w)
    (hlock : s.cursorLockWindow = window) :
    ∃ s' w', glfwSetMousePos window x y s = some s' ∧ s'.deref window = some w' ∧
      w'.mousePosX = x ∧ w'.mousePosY = y ∧ s'.calls = s.calls := by
  by_cases hsame : x = w.mousePosX ∧ y = w.mousePosY
  · exact ⟨s, w, glfwSetMousePos_same s window w x y hinit hw hsame.1 hsame.2, hw,
      hsame.1.symm, hsame.2.symm, rfl⟩
  · exact ⟨_, _, glfwSetMousePos_locked s window w x y hinit hw hsame hlock,
      deref_store_same s window w _ hw, rfl, rfl, rfl⟩

/-- Witness of C8: the sample window holding the cursor lock, moved to
(-7, 12). -/
theorem glfwSetMousePos_lock_holder_witness :
    (sampleLocked._glfwInitialized = true ∧ sampleLocked.deref 1 = some sampleWindow ∧
      sampleLocked.cursorLockWindow = 1) ∧
    ∃ s' w', glfwSetMousePos 1 (-7) 12 sampleLocked = some s' ∧ s'.deref 1 = some w' ∧
      w'.mousePosX = -7 ∧ w'.mousePosY = 12 ∧ s'.calls = sampleLocked.calls :=
  ⟨⟨rfl, by decide, rfl⟩,
   glfwSetMousePos_lock_holder sampleLocked 1 sampleWindow (-7) 12 rfl (by decide) rfl⟩

/-- C9: idempotence of `glfwSetMousePos`. On an initialised library, for a
valid window (with or without a registered cursor-move callback) and every
(x, y): a second `glfwSetMousePos(window, x, y)` right after the first
returns the state the first one produced, call trace included, so it calls
nothing; the calls made by the first are at most one, and each of them is the
platform hook `_glfwPlatformSetMouseCursorPos(window, x, y)`, never a
callback. -/
theorem glfwSetMousePos_twice (s : State) (window : GLFWwindow) (w : Window) (x y : Int)
    (hinit : s._glfwInitialized = true) (hw : s.deref window = some w) :
    ∃ s1 l, glfwSetMousePos window x y s = some s1 ∧
      glfwSetMousePos window x y s1 = some s1 ∧
      s1.calls = s.calls ++ l ∧ l.length ≤ 1 ∧
      ∀ c ∈ l, c = Call.platformSetMouseCursorPos window x y := by
  by_cases hsame : x = w.mousePosX ∧ y = w.mousePosY
  · have h1 := glfwSetMousePos_same s window w x y hinit hw hsame.1 hsame.2
    exact ⟨s, [], h1, h1, by simp, by simp, by simp⟩
  · have hw1 := deref_store_same s window w { w with mousePosX := x, mousePosY := y } hw
    by_cases hlock : s.cursorLockWindow = window
    · refine ⟨_, [], glfwSetMousePos_locked s window w x y hinit hw hsame hlock, ?_,
        by simp [State.store], by simp, by simp⟩
      exact glfwSetMousePos_same _ window _ x y hinit hw1 rfl rfl
    · refine ⟨_, [Call.platformSetMouseCursorPos window x y],
        glfwSetMousePos_free s window w x y hinit hw hsame hlock, ?_, rfl, by simp, by simp⟩
      exact glfwSetMousePos_same _ window _ x y hinit hw1 rfl rfl

/-- Witness of C9: the sample window, which has a cursor-move callback
registered, moved to (8, 9). -/
theorem glfwSetMousePos_twice_witness :
    (sampleState._glfwInitialized = true ∧ sampleState.deref 1 = some sampleWindow ∧
      sampleWindow.mousePosCallback ≠ NULL) ∧
    ∃ s1 l, glfwSetMousePos 1 8 9 sampleState = some s1 ∧
      glfwSetMousePos 1 8 9 s1 = some s1 ∧
      s1.calls = sampleState.calls ++ l ∧ l.length ≤ 1 ∧
      ∀ c ∈ l, c = Call.platformSetMouseCursorPos 1 8 9 :=
  ⟨⟨rfl, by decide, by decide⟩,
   glfwSetMousePos_twice sampleState 1 sampleWindow 8 9 rfl (by decide)⟩

/-- C10: on an initialised library, for a valid window with stored cursor
position (px, py) and every callback value `cbfun`:
`glfwSetMousePosCallback` stores `cbfun` in the cursor-move slot and changes
no other field of the window (the stored position included) and nothing else
of the state; when `cbfun` is not null the call trace gains exactly the one
call `cbfun(window, px, py)`, and when it is null the trace gains nothing. -/
theorem glfwSetMousePosCallback_delivers_position (s : State) (window : GLFWwindow)
    (w : Window) (cbfun : GLFWmouseposfun)
    (hinit : s._glfwInitialized = true) (hw : s.deref window = some w) :
    ∃ s', glfwSetMousePosCallback window cbfun s = some s' ∧
      s'.deref window = some { w with mousePosCallback := cbfun } ∧
      SameOutside window s s' ∧
      (cbfun ≠ NULL →
        s'.calls = s.calls ++ [Call.mousePosFun cbfun window w.mousePosX w.mousePosY]) ∧
      (cbfun = NULL → s'.calls = s.calls) := by
  have hw1 := deref_store_same s window w { w with mousePosCallback := cbfun } hw
  by_cases hcb : cbfun = NULL
  · refine ⟨s.store window { w with mousePosCallback := cbfun }, ?_, hw1,
      sameOutside_store window s _, fun h => absurd hcb h, fun _ => rfl⟩
    simp [glfwSetMousePosCallback, hinit, hw, hcb]
  · refine ⟨{ s.store window { w with mousePosCallback := cbfun } with
        calls := s.calls ++ [Call.mousePosFun cbfun window w.mousePosX w.mousePosY] },
      ?_, hw1, sameOutside_store window s _, fun _ => rfl, fun h => absurd h hcb⟩
    simp only [glfwSetMousePosCallback, hinit, hw]
    simp [hcb, hw1]
    rfl

/-- Witness of C10: registering callback 9 on the sample window, whose cursor
is at (3, 4), delivers (3, 4) once. -/
theorem glfwSetMousePosCallback_delivers_position_witness :
    (sampleState._glfwInitialized = true ∧ sampleState.deref 1 = some sampleWindow) ∧
    ∃ s', glfwSetMousePosCallback 1 9 sampleState = some s' ∧
      s'.deref 1 = some { sampleWindow with mousePosCallback := 9 } ∧
      SameOutside 1 sampleState s' ∧
      ((9 : Nat) ≠ NULL → s'.calls = sampleState.calls ++ [Call.mousePosFun 9 1 3 4]) ∧
      ((9 : Nat) = NULL → s'.calls = sampleState.calls) :=
  ⟨⟨rfl, by decide⟩,
   glfwSetMousePosCallback_delivers_position sampleState 1 sampleWindow 9 rfl (by decide)⟩

/-- C11: on an initialised library, for a valid window with stored wheel
position p and every callback value `cbfun`: `glfwSetMouseWheelCallback`
stores `cbfun` in the wheel slot and changes no other field of the window
(the wheel position included) and nothing else of the state; when `cbfun` is
not null the call trace gains exactly the one call `cbfun(window, p)`, and
when it is null the trace gains nothing. -/
theorem glfwSetMouseWheelCallback_delivers_wheel (s : State) (window : GLFWwindow)
    (w : Window) (cbfun : GLFWmousewheelfun)
    (hinit : s._glfwInitialized = true) (hw : s.deref window = some w) :
    ∃ s', glfwSetMouseWheelCallback window cbfun s = some s' ∧
      s'.deref window = some { w with mouseWheelCallback := cbfun } ∧
      SameOutside window s s' ∧
      (cbfun ≠ NULL → s'.calls = s.calls ++ [Call.mouseWheelFun cbfun window w.wheelPos]) ∧
      (cbfun = NULL → s'.calls = s.calls) := by
  have hw1 := deref_store_same s window w { w with mouseWheelCallback := cbfun } hw
  by_cases hcb : cbfun = NULL
  · refine ⟨s.store window { w with mouseWheelCallback := cbfun }, ?_, hw1,
      sameOutside_store window s _, fun h => absurd hcb h, fun _ => rfl⟩
    simp [glfwSetMouseWheelCallback, hinit, hw, hcb]
  · refine ⟨{ s.store window { w with mouseWheelCallback := cbfun } with
        calls := s.calls ++ [Call.mouseWheelFun cbfun window w.wheelPos] },
      ?_, hw1, sameOutside_store window s _, fun _ => rfl, fun h => absurd h hcb⟩
    simp only [glfwSetMouseWheelCallback, hinit, hw]
    simp [hcb, hw1]
    rfl

/-- Witness of C11: registering callback 9 on the sample window, whose wheel
is at 5, delivers 5 once. -/
theorem glfwSetMouseWheelCallback_delivers_wheel_witness :
    (sampleState._glfwInitialized = true ∧ sampleState.deref 1 = some sampleWindow) ∧
    ∃ s', glfwSetMouseWheelCallback 1 9 sampleState = some s' ∧
      s'.deref 1 = some { sampleWindow with mouseWheelCallback := 9 } ∧
      SameOutside 1 sampleState s' ∧
      ((9 : Nat) ≠ NULL → s'.calls = sampleState.calls ++ [Call.mouseWheelFun 9 1 5]) ∧
      ((9 : Nat) = NULL → s'.calls = sampleState.calls) :=
  ⟨⟨rfl, by decide⟩,
   glfwSetMouseWheelCallback_delivers_wheel sampleState 1 sampleWindow 9 rfl (by decide)⟩

/-- C12: on an initialised library, for a valid window and every callback
value, null or not, each of `glfwSetKeyCallback`, `glfwSetCharCallback` and
`glfwSetMouseButtonCallback` sets its own slot to the value given and leaves
every other field of the window (the other four callback slots included),
every other window, the last error and the call trace as they were: neither
the new nor a previously registered callback is called, nor the platform
hook. -/
theorem plain_callback_setters_only_assign (s : State) (window : GLFWwindow) (w : Window)
    (kf : GLFWkeyfun) (cf : GLFWcharfun) (bf : GLFWmousebuttonfun)
    (hinit : s._glfwInitialized = true) (hw : s.deref window = some w) :
    (∃ s', glfwSetKeyCallback window kf s = some s' ∧
      s'.deref window = some { w with keyCallback := kf } ∧
      SameOutside window s s' ∧ s'.calls = s.calls) ∧
    (∃ s', glfwSetCharCallback window cf s = some s' ∧
      s'.deref window = some { w with charCallback := cf } ∧
      SameOutside window s s' ∧ s'.calls = s.calls) ∧
    (∃ s', glfwSetMouseButtonCallback window bf s = some s' ∧
      s'.deref window = some { w with mouseButtonCallback := bf } ∧
      SameOutside window s s' ∧ s'.calls = s.calls) := by
  refine ⟨⟨s.store window { w with keyCallback := kf }, ?_,
      deref_store_same s window w _ hw, sameOutside_store window s _, rfl⟩,
    ⟨s.store window { w with charCallback := cf }, ?_,
      deref_store_same s window w _ hw, sameOutside_store window s _, rfl⟩,
    ⟨s.store window { w with mouseButtonCallback := bf }, ?_,
      deref_store_same s window w _ hw, sameOutside_store window s _, rfl⟩⟩
  · simp [glfwSetKeyCallback, hinit, hw]
  · simp [glfwSetCharCallback, hinit, hw]
  · simp [glfwSetMouseButtonCallback, hinit, hw]

/-- Witness of C12: on the sample window, which has key callback 11 and
cursor-move callback 14 registered, the key callback is cleared and the other
two are set. -/
theorem plain_callback_setters_only_assign_witness :
    (sampleState._glfwInitialized = true ∧ sampleState.deref 1 = some sampleWindow) ∧
    (∃ s', glfwSetKeyCallback 1 NULL sampleState = some s' ∧
      s'.deref 1 = some { sampleWindow with keyCallback := NULL } ∧
      SameOutside 1 sampleState s' ∧ s'.calls = sampleState.calls) ∧
    (∃ s', glfwSetCharCallback 1 22 sampleState = some s' ∧
      s'.deref 1 = some { sampleWindow with charCallback := 22 } ∧
      SameOutside 1 sampleState s' ∧ s'.calls = sampleState.calls) ∧
    (∃ s', glfwSetMouseButtonCallback 1 23 sampleState = some s' ∧
      s'.deref 1 = some { sampleWindow with mouseButtonCallback := 23 } ∧
      SameOutside 1 sampleState s' ∧ s'.calls = sampleState.calls) :=
  ⟨⟨rfl, by decide⟩,
   plain_callback_setters_only_assign sampleState 1 sampleWindow NULL 22 23 rfl (by decide)⟩

/-- C13: wheel round trip. On an initialised library, for a valid window and
every integer v (negative values and the ends of the `int` range included):
`glfwSetMouseWheel(window, v)` changes only the wheel field of the window, to
v, and calls nothing (the registered wheel callback included); the
`glfwGetMouseWheel` that follows returns exactly v and returns the state it
was given. -/
theorem wheel_round_trip (s : State) (window : GLFWwindow) (w : Window) (v : Int)
    (hinit : s._glfwInitialized = true) (hw : s.deref window = some w) :
    ∃ s1, glfwSetMouseWheel window v s = some s1 ∧
      s1.deref window = some { w with wheelPos := v } ∧
      SameOutside window s s1 ∧ s1.calls = s.calls ∧
      glfwGetMouseWheel window s1 = some (v, s1) := by
  have hw1 := deref_store_same s window w { w with wheelPos := v } hw
  refine ⟨s.store window { w with wheelPos := v }, ?_, hw1, sameOutside_store window s _,
    rfl, ?_⟩
  · simp [glfwSetMouseWheel, hinit, hw]
  · have hinit1 : (s.store window { w with wheelPos := v })._glfwInitialized = true := hinit
    simp [glfwGetMouseWheel, hinit1, hw1]

/-- Witness of C13: the least `int`, -2147483648, on the sample window. -/
theorem wheel_round_trip_witness :
    (sampleState._glfwInitialized = true ∧ sampleState.deref 1 = some sampleWindow) ∧
    ∃ s1, glfwSetMouseWheel 1 (-2147483648) sampleState = some s1 ∧
      s1.deref 1 = some { sampleWindow with wheelPos := -2147483648 } ∧
      SameOutside 1 sampleState s1 ∧ s1.calls = sampleState.calls ∧
      glfwGetMouseWheel 1 s1 = some (-2147483648, s1) :=
  ⟨⟨rfl, by decide⟩, wheel_round_trip sampleState 1 sampleWindow (-2147483648) rfl (by decide)⟩

/-- C14: on an initialised library, for a valid window with stored cursor
position (px, py): `glfwGetMousePos` stores px through `xpos` exactly when
`xpos` is not null and py through `ypos` exactly when `ypos` is not null,
each whatever the other is, and returns the state it was given: no window
field changes and no error is set. -/
theorem glfwGetMousePos_outputs (s : State) (window : GLFWwindow) (w : Window)
    (xpos ypos : Nat) (hinit : s._glfwInitialized = true) (hw : s.deref window = some w) :
    glfwGetMousePos window xpos ypos s
      = some ((if xpos ≠ NULL then some w.mousePosX else none,
               if ypos ≠ NULL then some w.mousePosY else none), s) := by
  by_cases hx : xpos = NULL <;> by_cases hy : ypos = NULL <;>
    simp [glfwGetMousePos, hinit, hw, hx, hy]

/-- Witness of C14: the four combinations of outputs on the sample window,
whose cursor is at (3, 4). -/
theorem glfwGetMousePos_outputs_witness :
    (sampleState._glfwInitialized = true ∧ sampleState.deref 1 = some sampleWindow) ∧
    glfwGetMousePos 1 7 8 sampleState = some ((some 3, some 4), sampleState) ∧
    glfwGetMousePos 1 7 NULL sampleState = some ((some 3, none), sampleState) ∧
    glfwGetMousePos 1 NULL 8 sampleState = some ((none, some 4), sampleState) ∧
    glfwGetMousePos 1 NULL NULL sampleState = some ((none, none), sampleState) :=
  ⟨⟨rfl, by decide⟩,
   glfwGetMousePos_outputs sampleState 1 sampleWindow 7 8 rfl (by decide),
   glfwGetMousePos_outputs sampleState 1 sampleWindow 7 NULL rfl (by decide),
   glfwGetMousePos_outputs sampleState 1 sampleWindow NULL 8 rfl (by decide),
   glfwGetMousePos_outputs sampleState 1 sampleWindow NULL NULL rfl (by decide)⟩

/-- C15: for every call of an operation of the file other than
`glfwSetMousePos`, on a valid window whose tables have their declared sizes,
whatever the arguments and whether the library is initialised or not, the
call returns and the stored cursor position of every window after the call is
its stored cursor position before the call; `glfwGetMousePos` and
`glfwSetMousePosCallback` are among these calls. -/
theorem cursor_kept_by_all_but_glfwSetMousePos (keyLast buttonLast : Nat) (s : State)
    (op : Op) (w : Window) (hw : s.deref op.window = some w)
    (hsz : w.wellSized keyLast buttonLast) (hop : op.isSetMousePos = false) :
    ∃ s', op.run keyLast buttonLast s = some s' ∧
      ∀ p : GLFWwindow, cursorOf s' p = cursorOf s p := by
  cases op with
  | glfwGetKey window key =>
    rcases glfwGetKey_cases keyLast s window w key hw hsz.1 with
      ⟨-, h⟩ | ⟨-, -, h⟩ | ⟨-, -, -, -, h⟩ | ⟨-, -, -, v, -, -, h⟩
    · exact ⟨_glfwSetError ErrorCode.GLFW_NOT_INITIALIZED s, by simp [Op.run, h],
        fun _ => rfl⟩
    · exact ⟨_glfwSetError ErrorCode.GLFW_INVALID_VALUE s, by simp [Op.run, h], fun _ => rfl⟩
    · exact ⟨s.store window { w with key := w.key.set key.toNat TriState.GLFW_RELEASE },
        by simp [Op.run, h], cursorOf_store s window w _ hw rfl rfl⟩
    · exact ⟨s, by simp [Op.run, h], fun _ => rfl⟩
  | glfwGetMouseButton window button =>
    rcases glfwGetMouseButton_cases buttonLast s window w button hw hsz.2 with
      ⟨-, h⟩ | ⟨-, -, h⟩ | ⟨-, -, -, -, h⟩ | ⟨-, -, -, v, -, -, h⟩
    · exact ⟨_glfwSetError ErrorCode.GLFW_NOT_INITIALIZED s, by simp [Op.run, h],
        fun _ => rfl⟩
    · exact ⟨_glfwSetError ErrorCode.GLFW_INVALID_ENUM s, by simp [Op.run, h], fun _ => rfl⟩
    · exact ⟨s.store window { w with mouseButton := w.mouseButton.set button.toNat TriState.GLFW_RELEASE },
        by simp [Op.run, h], cursorOf_store s window w _ hw rfl rfl⟩
    · exact ⟨s, by simp [Op.run, h], fun _ => rfl⟩
  | glfwGetMousePos window xpos ypos =>
    have hw1 : s.deref window = some w := hw
    by_cases hinit : s._glfwInitialized = true
    · refine ⟨s, ?_, fun _ => rfl⟩
      by_cases hx : xpos = NULL <;> by_cases hy : ypos = NULL <;>
        simp [Op.run, glfwGetMousePos, hinit, hw1, hx, hy]
    · exact ⟨_glfwSetError ErrorCode.GLFW_NOT_INITIALIZED s,
        by simp [Op.run, glfwGetMousePos, hinit], fun _ => rfl⟩
  | glfwSetMousePos window xpos ypos => simp [Op.isSetMousePos] at hop
  | glfwGetMouseWheel window =>
    have hw1 : s.deref window = some w := hw
    by_cases hinit : s._glfwInitialized = true
    · exact ⟨s, by simp [Op.run, glfwGetMouseWheel, hinit, hw1], fun _ => rfl⟩
    · exact ⟨_glfwSetError ErrorCode.GLFW_NOT_INITIALIZED s,
        by simp [Op.run, glfwGetMouseWheel, hinit], fun _ => rfl⟩
  | glfwSetMouseWheel window pos =>
    have hw1 : s.deref window = some w := hw
    by_cases hinit : s._glfwInitialized = true
    · exact ⟨s.store window { w with wheelPos := pos },
        by simp [Op.run, glfwSetMouseWheel, hinit, hw1], cursorOf_store s window w _ hw rfl rfl⟩
    · exact ⟨_glfwSetError ErrorCode.GLFW_NOT_INITIALIZED s,
        by simp [Op.run, glfwSetMouseWheel, hinit], fun _ => rfl⟩
  | glfwSetKeyCallback window cbfun =>
    have hw1 : s.deref window = some w := hw
    by_cases hinit : s._glfwInitialized = true
    · exact ⟨s.store window { w with keyCallback := cbfun },
        by simp [Op.run, glfwSetKeyCallback, hinit, hw1], cursorOf_store s window w _ hw rfl rfl⟩
    · exact ⟨_glfwSetError ErrorCode.GLFW_NOT_INITIALIZED s,
        by simp [Op.run, glfwSetKeyCallback, hinit], fun _ => rfl⟩
  | glfwSetCharCallback window cbfun =>
    have hw1 : s.deref window = some w := hw
    by_cases hinit : s._glfwInitialized = true
    · exact ⟨s.store window { w with charCallback := cbfun },
        by simp [Op.run, glfwSetCharCallback, hinit, hw1], cursorOf_store s window w _ hw rfl rfl⟩
    · exact ⟨_glfwSetError ErrorCode.GLFW_NOT_INITIALIZED s,
        by simp [Op.run, glfwSetCharCallback, hinit], fun _ => rfl⟩
  | glfwSetMouseButtonCallback window cbfun =>
    have hw1 : s.deref window = some w := hw
    by_cases hinit : s._glfwInitialized = true
    · exact ⟨s.store window { w with mouseButtonCallback := cbfun },
        by simp [Op.run, glfwSetMouseButtonCallback, hinit, hw1],
        cursorOf_store s window w _ hw rfl rfl⟩
    · exact ⟨_glfwSetError ErrorCode.GLFW_NOT_INITIALIZED s,
        by simp [Op.run, glfwSetMouseButtonCallback, hinit], fun _ => rfl⟩
  | glfwSetMousePosCallback window cbfun =>
    have hw1 : s.deref window = some w := hw
    by_cases hinit : s._glfwInitialized = true
    · obtain ⟨s', h, hd, -, -, -⟩ :=
        glfwSetMousePosCallback_shape s window w cbfun hinit hw1
      refine ⟨s', by simp [Op.run, h], fun p => ?_⟩
      rw [cursorOf_heap _ s' hd p]
      exact cursorOf_store s window w { w with mousePosCallback := cbfun } hw rfl rfl p
    · exact ⟨_glfwSetError ErrorCode.GLFW_NOT_INITIALIZED s,
        by simp [Op.run, glfwSetMousePosCallback, hinit], fun _ => rfl⟩
  | glfwSetMouseWheelCallback window cbfun =>
    have hw1 : s.deref window = some w := hw
    by_cases hinit : s._glfwInitialized = true
    · obtain ⟨s', h, hd, -, -, -⟩ :=
        glfwSetMouseWheelCallback_shape s window w cbfun hinit hw1
      refine ⟨s', by simp [Op.run, h], fun p => ?_⟩
      rw [cursorOf_heap _ s' hd p]
      exact cursorOf_store s window w { w with mouseWheelCallback := cbfun } hw rfl rfl p
    · exact ⟨_glfwSetError ErrorCode.GLFW_NOT_INITIALIZED s,
        by simp [Op.run, glfwSetMouseWheelCallback, hinit], fun _ => rfl⟩

/-- Witness of C15: on the sample window, whose cursor is at (3, 4), a read of
the position, the registration of a cursor-move callback, the read of a
sticky key and a call on the uninitialised library. -/
theorem cursor_kept_by_all_but_glfwSetMousePos_witness :
    (sampleState.deref 1 = some sampleWindow ∧ sampleUninit.deref 1 = some sampleWindow ∧
      sampleWindow.wellSized 3 1) ∧
    (∃ s', (Op.glfwGetMousePos 1 7 8).run 3 1 sampleState = some s' ∧
      ∀ p : GLFWwindow, cursorOf s' p = cursorOf sampleState p) ∧
    (∃ s', (Op.glfwSetMousePosCallback 1 9).run 3 1 sampleState = some s' ∧
      ∀ p : GLFWwindow, cursorOf s' p = cursorOf sampleState p) ∧
    (∃ s', (Op.glfwGetKey 1 2).run 3 1 sampleState = some s' ∧
      ∀ p : GLFWwindow, cursorOf s' p = cursorOf sampleState p) ∧
    (∃ s', (Op.glfwSetMouseWheel 1 6).run 3 1 sampleUninit = some s' ∧
      ∀ p : GLFWwindow, cursorOf s' p = cursorOf sampleUninit p) :=
  ⟨⟨by decide, by decide, rfl, rfl⟩,
   cursor_kept_by_all_but_glfwSetMousePos 3 1 sampleState (Op.glfwGetMousePos 1 7 8)
      sampleWindow (by decide) ⟨rfl, rfl⟩ rfl,
   cursor_kept_by_all_but_glfwSetMousePos 3 1 sampleState (Op.glfwSetMousePosCallback 1 9)
      sampleWindow (by decide) ⟨rfl, rfl⟩ rfl,
   cursor_kept_by_all_but_glfwSetMousePos 3 1 sampleState (Op.glfwGetKey 1 2)
      sampleWindow (by decide) ⟨rfl, rfl⟩ rfl,
   cursor_kept_by_all_but_glfwSetMousePos 3 1 sampleUninit (Op.glfwSetMouseWheel 1 6)
      sampleWindow (by decide) ⟨rfl, rfl⟩ rfl⟩

/-- C16: bounds safety. For a valid window whose key table has
`GLFW_KEY_LAST + 1` entries and whose button table has
`GLFW_MOUSE_BUTTON_LAST + 1` entries, and for every `int` argument (negative,
in range or above the maximum), initialised or not: `glfwGetKey` and
`glfwGetMouseButton` return a result, so neither reaches the out-of-table
branch of `index` or `assign`, and they leave the tables at their sizes; an
index that passes the range check lies inside the table, where both the read
and the write are defined. -/
theorem table_access_in_bounds (keyLast buttonLast : Nat) (s : State) (window : GLFWwindow)
    (w : Window) (key button : Int) (hw : s.deref window = some w)
    (hsz : w.wellSized keyLast buttonLast) :
    (∃ r s' w', glfwGetKey keyLast window key s = some (r, s') ∧
      s'.deref window = some w' ∧ w'.wellSized keyLast buttonLast) ∧
    (∃ r s' w', glfwGetMouseButton buttonLast window button s = some (r, s') ∧
      s'.deref window = some w' ∧ w'.wellSized keyLast buttonLast) ∧
    (¬ (key < 0 ∨ key > (keyLast : Int)) →
      0 ≤ key ∧ key.toNat < w.key.length ∧ (∃ v, index w.key key = some v) ∧
      ∃ tbl, assign w.key key TriState.GLFW_RELEASE = some tbl) ∧
    (¬ (button < 0 ∨ button > (buttonLast : Int)) →
      0 ≤ button ∧ button.toNat < w.mouseButton.length ∧
      (∃ v, index w.mouseButton button = some v) ∧
      ∃ tbl, assign w.mouseButton button TriState.GLFW_RELEASE = some tbl) := by
  refine ⟨?_, ?_, ?_, ?_⟩
  · rcases glfwGetKey_cases keyLast s window w key hw hsz.1 with
      ⟨-, h⟩ | ⟨-, -, h⟩ | ⟨-, -, -, -, h⟩ | ⟨-, -, -, v, -, -, h⟩
    · exact ⟨_, _, w, h, hw, hsz⟩
    · exact ⟨_, _, w, h, hw, hsz⟩
    · refine ⟨_, _, _, h, deref_store_same s window w _ hw, ?_, hsz.2⟩
      simp [hsz.1]
    · exact ⟨_, _, w, h, hw, hsz⟩
  · rcases glfwGetMouseButton_cases buttonLast s window w button hw hsz.2 with
      ⟨-, h⟩ | ⟨-, -, h⟩ | ⟨-, -, -, -, h⟩ | ⟨-, -, -, v, -, -, h⟩
    · exact ⟨_, _, w, h, hw, hsz⟩
    · exact ⟨_, _, w, h, hw, hsz⟩
    · refine ⟨_, _, _, h, deref_store_same s window w _ hw, hsz.1, ?_⟩
      simp [hsz.2]
    · exact ⟨_, _, w, h, hw, hsz⟩
  · intro hr
    have h0 : 0 ≤ key := by omega
    have hhi : key ≤ (keyLast : Int) := by omega
    obtain ⟨v, hv⟩ := index_in_range w.key keyLast key hsz.1 h0 hhi
    exact ⟨h0, by have := hsz.1; omega, ⟨v, hv⟩, _, assign_of_index _ _ _ _ hv⟩
  · intro hr
    have h0 : 0 ≤ button := by omega
    have hhi : button ≤ (buttonLast : Int) := by omega
    obtain ⟨v, hv⟩ := index_in_range w.mouseButton buttonLast button hsz.2 h0 hhi
    exact ⟨h0, by have := hsz.2; omega, ⟨v, hv⟩, _, assign_of_index _ _ _ _ hv⟩

/-- Witness of C16: the sample window (4 key slots, 2 button slots) with key
3, the last one of the table, and button 2, one above the maximum. -/
theorem table_access_in_bounds_witness :
    (sampleState.deref 1 = some sampleWindow ∧ sampleWindow.wellSized 3 1) ∧
    (∃ r s' w', glfwGetKey 3 1 3 sampleState = some (r, s') ∧
      s'.deref 1 = some w' ∧ w'.wellSized 3 1) ∧
    (∃ r s' w', glfwGetMouseButton 1 1 2 sampleState = some (r, s') ∧
      s'.deref 1 = some w' ∧ w'.wellSized 3 1) ∧
    (¬ ((3 : Int) < 0 ∨ (3 : Int) > ((3 : Nat) : Int)) →
      (0 : Int) ≤ 3 ∧ (3 : Int).toNat < sampleWindow.key.length ∧
      (∃ v, index sampleWindow.key 3 = some v) ∧
      ∃ tbl, assign sampleWindow.key 3 TriState.GLFW_RELEASE = some tbl) ∧
    (¬ ((2 : Int) < 0 ∨ (2 : Int) > ((1 : Nat) : Int)) →
      (0 : Int) ≤ 2 ∧ (2 : Int).toNat < sampleWindow.mouseButton.length ∧
      (∃ v, index sampleWindow.mouseButton 2 = some v) ∧
      ∃ tbl, assign sampleWindow.mouseButton 2 TriState.GLFW_RELEASE = some tbl) :=
  ⟨⟨by decide, rfl, rfl⟩,
   table_access_in_bounds 3 1 sampleState 1 sampleWindow 3 2 (by decide) ⟨rfl, rfl⟩⟩

/-- C17: slot state machine. For every call of an operation of the file on a
valid window whose tables have their declared sizes, whatever the arguments
and the initialised flag, the call returns, and every key slot and every
button slot of every window either holds after the call what it held before,
or held `GLFW_STICK` before and holds `GLFW_RELEASE` after; the second case
occurs only for the key slot named by a `glfwGetKey` call and for the button
slot named by a `glfwGetMouseButton` call. A slot that holds `GLFW_PRESS` or
`GLFW_STICK` after the call held the same value before it. -/
theorem slot_steps_of_every_call (keyLast buttonLast : Nat) (s : State) (op : Op)
    (w : Window) (hw : s.deref op.window = some w) (hsz : w.wellSized keyLast buttonLast) :
    ∃ s', op.run keyLast buttonLast s = some s' ∧ SlotSteps op s s' ∧
      ∀ (p : GLFWwindow) (wp wp' : Window) (i : Int) (v : TriState),
        s.deref p = some wp → s'.deref p = some wp' → v ≠ TriState.GLFW_RELEASE →
        (index wp'.key i = some v → index wp.key i = some v) ∧
        (index wp'.mouseButton i = some v → index wp.mouseButton i = some v) := by
  have key : ∃ s', op.run keyLast buttonLast s = some s' ∧ SlotSteps op s s' := by
    obtain ⟨s', hrun, h⟩ := run_outcome keyLast buttonLast s op w hw hsz
    refine ⟨s', hrun, ?_⟩
    rcases h with ⟨-, rfl⟩ | ⟨-, -, -, -, rfl⟩ | ⟨-, -, -, -, rfl⟩ |
      ⟨-, key, hop, h0, -, hk, rfl⟩ | ⟨-, button, hop, h0, -, hb, rfl⟩ |
      ⟨-, -, -, w', hk', hb', hh, -⟩
    · exact slotSteps_of_tables op s _ (fun p wp hp => ⟨wp, hp, rfl, rfl⟩)
    · exact slotSteps_of_tables op s _ (fun p wp hp => ⟨wp, hp, rfl, rfl⟩)
    · exact slotSteps_of_tables op s _ (fun p wp hp => ⟨wp, hp, rfl, rfl⟩)
    · intro p wp hp
      rw [deref_of_heap_update s _ op.window w
        { w with key := w.key.set key.toNat TriState.GLFW_RELEASE } hw rfl p]
      by_cases hpw : p = op.window
      · subst hpw
        have hwp : wp = w := by
          rw [hw] at hp
          exact (Option.some.inj hp).symm
        subst hwp
        refine ⟨{ wp with key := wp.key.set key.toNat TriState.GLFW_RELEASE }, by simp, ?_,
          fun i => Or.inl rfl⟩
        intro i
        by_cases hi : i = key
        · subst hi
          exact Or.inr ⟨hk, index_set_same _ _ _ _ hk, hop⟩
        · exact Or.inl (index_set_other wp.key key i TriState.GLFW_RELEASE h0 hi)
      · exact ⟨wp, by simp [hpw, hp], fun i => Or.inl rfl, fun i => Or.inl rfl⟩
    · intro p wp hp
      rw [deref_of_heap_update s _ op.window w
        { w with mouseButton := w.mouseButton.set button.toNat TriState.GLFW_RELEASE } hw rfl p]
      by_cases hpw : p = op.window
      · subst hpw
        have hwp : wp = w := by
          rw [hw] at hp
          exact (Option.some.inj hp).symm
        subst hwp
        refine ⟨{ wp with mouseButton := wp.mouseButton.set button.toNat TriState.GLFW_RELEASE },
          by simp, fun i => Or.inl rfl, ?_⟩
        intro i
        by_cases hi : i = button
        · subst hi
          exact Or.inr ⟨hb, index_set_same _ _ _ _ hb, hop⟩
        · exact Or.inl (index_set_other wp.mouseButton button i TriState.GLFW_RELEASE h0 hi)
      · exact ⟨wp, by simp [hpw, hp], fun i => Or.inl rfl, fun i => Or.inl rfl⟩
    · exact slotSteps_of_tables op s s'
        (tables_of_heap_update s s' op.window w w' hw hh hk' hb')
  obtain ⟨s', hrun, hsteps⟩ := key
  refine ⟨s', hrun, hsteps, ?_⟩
  intro p wp wp' i v hp hp' hv
  obtain ⟨wp2, h2, hkey, hbut⟩ := hsteps p wp hp
  have he : wp2 = wp' := by
    rw [hp'] at h2
    exact (Option.some.inj h2).symm
  subst he
  exact ⟨slotStep_keeps_set _ _ _ v (hkey i) hv, slotStep_keeps_set _ _ _ v (hbut i) hv⟩

/-- Witness of C17: reading the sticky key 2 of the sample window. -/
theorem slot_steps_of_every_call_witness :
    (sampleState.deref (Op.glfwGetKey 1 2).window = some sampleWindow ∧
      sampleWindow.wellSized 3 1) ∧
    ∃ s', (Op.glfwGetKey 1 2).run 3 1 sampleState = some s' ∧
      SlotSteps (Op.glfwGetKey 1 2) sampleState s' ∧
      ∀ (p : GLFWwindow) (wp wp' : Window) (i : Int) (v : TriState),
        sampleState.deref p = some wp → s'.deref p = some wp' → v ≠ TriState.GLFW_RELEASE →
        (index wp'.key i = some v → index wp.key i = some v) ∧
        (index wp'.mouseButton i = some v → index wp.mouseButton i = some v) :=
  ⟨⟨by decide, rfl, rfl⟩,
   slot_steps_of_every_call 3 1 sampleState (Op.glfwGetKey 1 2) sampleWindow (by decide)
      ⟨rfl, rfl⟩⟩

/-- C18: the last-error slot is set-only. For every call of an operation of
the file on a valid window whose tables have their declared sizes, the call
returns and: on an uninitialised library the last error becomes
`GLFW_NOT_INITIALIZED`; on an initialised one an out-of-range key of
`glfwGetKey` makes it `GLFW_INVALID_VALUE` and an out-of-range button of
`glfwGetMouseButton` makes it `GLFW_INVALID_ENUM`; if the last error after
the call differs from the one before, one of these three validation failures
occurred, so a call that passes validation leaves a recorded error in place;
the last error after the call is the one before or one of the three kinds,
and a recorded error is never cleared. -/
theorem last_error_set_only (keyLast buttonLast : Nat) (s : State) (op : Op) (w : Window)
    (hw : s.deref op.window = some w) (hsz : w.wellSized keyLast buttonLast) :
    ∃ s', op.run keyLast buttonLast s = some s' ∧
      (s._glfwInitialized = false →
        s'.lastError = some ErrorCode.GLFW_NOT_INITIALIZED) ∧
      (∀ (window : GLFWwindow) (key : Int), s._glfwInitialized = true →
        op = Op.glfwGetKey window key → (key < 0 ∨ (keyLast : Int) < key) →
        s'.lastError = some ErrorCode.GLFW_INVALID_VALUE) ∧
      (∀ (window : GLFWwindow) (button : Int), s._glfwInitialized = true →
        op = Op.glfwGetMouseButton window button →
        (button < 0 ∨ (buttonLast : Int) < button) →
        s'.lastError = some ErrorCode.GLFW_INVALID_ENUM) ∧
      (s'.lastError ≠ s.lastError →
        s._glfwInitialized = false ∨
        (∃ (window : GLFWwindow) (key : Int),
          op = Op.glfwGetKey window key ∧ (key < 0 ∨ (keyLast : Int) < key)) ∨
        (∃ (window : GLFWwindow) (button : Int),
          op = Op.glfwGetMouseButton window button ∧
          (button < 0 ∨ (buttonLast : Int) < button))) ∧
      (s'.lastError = s.lastError ∨
        s'.lastError = some ErrorCode.GLFW_NOT_INITIALIZED ∨
        s'.lastError = some ErrorCode.GLFW_INVALID_VALUE ∨
        s'.lastError = some ErrorCode.GLFW_INVALID_ENUM) ∧
      (s.lastError ≠ none → s'.lastError ≠ none) := by
  obtain ⟨s', hrun, h⟩ := run_outcome keyLast buttonLast s op w hw hsz
  refine ⟨s', hrun, ?_⟩
  rcases h with ⟨hi, rfl⟩ | ⟨hi, key, hop, hr, rfl⟩ | ⟨hi, button, hop, hr, rfl⟩ |
    ⟨hi, key, hop, h0, hhi, -, rfl⟩ | ⟨hi, button, hop, h0, hhi, -, rfl⟩ |
    ⟨hi, hkr, hbr, w', -, -, -, he⟩
  · refine ⟨fun _ => rfl, ?_, ?_, fun _ => Or.inl hi, Or.inr (Or.inl rfl), ?_⟩
    · intro _ _ hi'
      rw [hi] at hi'
      cases hi'
    · intro _ _ hi'
      rw [hi] at hi'
      cases hi'
    · intro _
      simp [_glfwSetError]
  · refine ⟨?_, fun _ _ _ _ _ => rfl, ?_, fun _ => Or.inr (Or.inl ⟨op.window, key, hop, hr⟩),
      Or.inr (Or.inr (Or.inl rfl)), ?_⟩
    · intro hi'
      rw [hi] at hi'
      cases hi'
    · intro window' button' _ hop' _
      cases hop.symm.trans hop'
    · intro _
      simp [_glfwSetError]
  · refine ⟨?_, ?_, fun _ _ _ _ _ => rfl,
      fun _ => Or.inr (Or.inr ⟨op.window, button, hop, hr⟩),
      Or.inr (Or.inr (Or.inr rfl)), ?_⟩
    · intro hi'
      rw [hi] at hi'
      cases hi'
    · intro window' key' _ hop' _
      cases hop.symm.trans hop'
    · intro _
      simp [_glfwSetError]
  · refine ⟨?_, ?_, ?_, fun hne => absurd rfl hne, Or.inl rfl, fun hne => hne⟩
    · intro hi'
      rw [hi] at hi'
      cases hi'
    · intro window' key' _ hop' hr'
      have hkk : key = key' := by
        have h2 := hop.symm.trans hop'
        injection h2
      omega
    · intro window' button' _ hop' _
      cases hop.symm.trans hop'
  · refine ⟨?_, ?_, ?_, fun hne => absurd rfl hne, Or.inl rfl, fun hne => hne⟩
    · intro hi'
      rw [hi] at hi'
      cases hi'
    · intro window' key' _ hop' _
      cases hop.symm.trans hop'
    · intro window' button' _ hop' hr'
      have hbb : button = button' := by
        have h2 := hop.symm.trans hop'
        injection h2
      omega
  · refine ⟨?_, ?_, ?_, fun hne => absurd he hne, Or.inl he, fun hne => by rw [he]; exact hne⟩
    · intro hi'
      rw [hi] at hi'
      cases hi'
    · intro window' key' _ hop' hr'
      have hwin : op.window = window' := by
        rw [hop']
        rfl
      have := hkr key' (by rw [hwin]; exact hop')
      omega
    · intro window' button' _ hop' hr'
      have hwin : op.window = window' := by
        rw [hop']
        rfl
      have := hbr button' (by rw [hwin]; exact hop')
      omega

/-- Witness of C18: on the sample state, which has `GLFW_INVALID_ENUM`
recorded, the read of key 1 passes validation. -/
theorem last_error_set_only_witness :
    (sampleState.deref (Op.glfwGetKey 1 1).window = some sampleWindow ∧
      sampleWindow.wellSized 3 1 ∧
      sampleState.lastError = some ErrorCode.GLFW_INVALID_ENUM) ∧
    ∃ s', (Op.glfwGetKey 1 1).run 3 1 sampleState = some s' ∧
      (sampleState._glfwInitialized = false →
        s'.lastError = some ErrorCode.GLFW_NOT_INITIALIZED) ∧
      (∀ (window : GLFWwindow) (key : Int), sampleState._glfwInitialized = true →
        Op.glfwGetKey 1 1 = Op.glfwGetKey window key → (key < 0 ∨ ((3 : Nat) : Int) < key) →
        s'.lastError = some ErrorCode.GLFW_INVALID_VALUE) ∧
      (∀ (window : GLFWwindow) (button : Int), sampleState._glfwInitialized = true →
        Op.glfwGetKey 1 1 = Op.glfwGetMouseButton window button →
        (button < 0 ∨ ((1 : Nat) : Int) < button) →
        s'.lastError = some ErrorCode.GLFW_INVALID_ENUM) ∧
      (s'.lastError ≠ sampleState.lastError →
        sampleState._glfwInitialized = false ∨
        (∃ (window : GLFWwindow) (key : Int),
          Op.glfwGetKey 1 1 = Op.glfwGetKey window key ∧
          (key < 0 ∨ ((3 : Nat) : Int) < key)) ∨
        (∃ (window : GLFWwindow) (button : Int),
          Op.glfwGetKey 1 1 = Op.glfwGetMouseButton window button ∧
          (button < 0 ∨ ((1 : Nat) : Int) < button))) ∧
      (s'.lastError = sampleState.lastError ∨
        s'.lastError = some ErrorCode.GLFW_NOT_INITIALIZED ∨
        s'.lastError = some ErrorCode.GLFW_INVALID_VALUE ∨
        s'.lastError = some ErrorCode.GLFW_INVALID_ENUM) ∧
      (sampleState.lastError ≠ none → s'.lastError ≠ none) :=
  ⟨⟨by decide, ⟨rfl, rfl⟩, rfl⟩,
   last_error_set_only 3 1 sampleState (Op.glfwGetKey 1 1) sampleWindow (by decide)
      ⟨rfl, rfl⟩⟩

/-- C19: for a valid window whose tables have their declared sizes (every
slot holds one of the three slot values), either value of the initialised
flag and every `int` argument, `glfwGetKey` and `glfwGetMouseButton` return
`GLFW_RELEASE` or `GLFW_PRESS`, never `GLFW_STICK`; and after a call that
passes validation (library initialised, code in range) the queried slot does
not hold `GLFW_STICK`. -/
theorem reads_never_report_stick (keyLast buttonLast : Nat) (s : State)
    (window : GLFWwindow) (w : Window) (key button : Int)
    (hw : s.deref window = some w) (hsz : w.wellSized keyLast buttonLast) :
    (∃ r s', glfwGetKey keyLast window key s = some (r, s') ∧
      (r = TriState.GLFW_RELEASE ∨ r = TriState.GLFW_PRESS) ∧ r ≠ TriState.GLFW_STICK ∧
      (s._glfwInitialized = true → 0 ≤ key → key ≤ (keyLast : Int) →
        ∃ w' v, s'.deref window = some w' ∧ index w'.key key = some v ∧
          v ≠ TriState.GLFW_STICK)) ∧
    (∃ r s', glfwGetMouseButton buttonLast window button s = some (r, s') ∧
      (r = TriState.GLFW_RELEASE ∨ r = TriState.GLFW_PRESS) ∧ r ≠ TriState.GLFW_STICK ∧
      (s._glfwInitialized = true → 0 ≤ button → button ≤ (buttonLast : Int) →
        ∃ w' v, s'.deref window = some w' ∧ index w'.mouseButton button = some v ∧
          v ≠ TriState.GLFW_STICK)) := by
  constructor
  · rcases glfwGetKey_cases keyLast s window w key hw hsz.1 with
      ⟨hi, h⟩ | ⟨-, hr, h⟩ | ⟨-, -, -, hk, h⟩ | ⟨-, -, -, v, hv, hk, h⟩
    · refine ⟨_, _, h, Or.inl rfl, by decide, ?_⟩
      intro hi'
      rw [hi] at hi'
      cases hi'
    · refine ⟨_, _, h, Or.inl rfl, by decide, ?_⟩
      intro _ h0 hhi
      omega
    · exact ⟨_, _, h, Or.inr rfl, by decide, fun _ _ _ =>
        ⟨_, TriState.GLFW_RELEASE, deref_store_same s window w _ hw,
          index_set_same _ _ _ _ hk, by decide⟩⟩
    · exact ⟨_, _, h, not_stick_cases v hv, hv, fun _ _ _ => ⟨w, v, hw, hk, hv⟩⟩
  · rcases glfwGetMouseButton_cases buttonLast s window w button hw hsz.2 with
      ⟨hi, h⟩ | ⟨-, hr, h⟩ | ⟨-, -, -, hk, h⟩ | ⟨-, -, -, v, hv, hk, h⟩
    · refine ⟨_, _, h, Or.inl rfl, by decide, ?_⟩
      intro hi'
      rw [hi] at hi'
      cases hi'
    · refine ⟨_, _, h, Or.inl rfl, by decide, ?_⟩
      intro _ h0 hhi
      omega
    · exact ⟨_, _, h, Or.inr rfl, by decide, fun _ _ _ =>
        ⟨_, TriState.GLFW_RELEASE, deref_store_same s window w _ hw,
          index_set_same _ _ _ _ hk, by decide⟩⟩
    · exact ⟨_, _, h, not_stick_cases v hv, hv, fun _ _ _ => ⟨w, v, hw, hk, hv⟩⟩

/-- Witness of C19: the sticky key 2 and the sticky button 0 of the sample
window. -/
theorem reads_never_report_stick_witness :
    (sampleState.deref 1 = some sampleWindow ∧ sampleWindow.wellSized 3 1 ∧
      index sampleWindow.key 2 = some TriState.GLFW_STICK ∧
      index sampleWindow.mouseButton 0 = some TriState.GLFW_STICK) ∧
    (∃ r s', glfwGetKey 3 1 2 sampleState = some (r, s') ∧
      (r = TriState.GLFW_RELEASE ∨ r = TriState.GLFW_PRESS) ∧ r ≠ TriState.GLFW_STICK ∧
      (sampleState._glfwInitialized = true → (0 : Int) ≤ 2 → (2 : Int) ≤ ((3 : Nat) : Int) →
        ∃ w' v, s'.deref 1 = some w' ∧ index w'.key 2 = some v ∧
          v ≠ TriState.GLFW_STICK)) ∧
    (∃ r s', glfwGetMouseButton 1 1 0 sampleState = some (r, s') ∧
      (r = TriState.GLFW_RELEASE ∨ r = TriState.GLFW_PRESS) ∧ r ≠ TriState.GLFW_STICK ∧
      (sampleState._glfwInitialized = true → (0 : Int) ≤ 0 → (0 : Int) ≤ ((1 : Nat) : Int) →
        ∃ w' v, s'.deref 1 = some w' ∧ index w'.mouseButton 0 = some v ∧
          v ≠ TriState.GLFW_STICK)) :=
  ⟨⟨by decide, ⟨rfl, rfl⟩, by decide, by decide⟩,
   reads_never_report_stick 3 1 sampleState 1 sampleWindow 2 0 (by decide) ⟨rfl, rfl⟩⟩

/-- C20: cursor round trip. On an initialised library, for a valid window,
whatever its stored position and whether or not it holds the cursor lock, and
for every (x, y): `glfwSetMousePos(window, x, y)` returns, and the
`glfwGetMousePos` that follows stores x through a non-null `xpos` and y
through a non-null `ypos`, so with both outputs supplied it yields exactly
(x, y). -/
theorem cursor_round_trip (s : State) (window : GLFWwindow) (w : Window) (x y : Int)
    (xpos ypos : Nat) (hinit : s._glfwInitialized = true) (hw : s.deref window = some w) :
    ∃ s1, glfwSetMousePos window x y s = some s1 ∧
      glfwGetMousePos window xpos ypos s1
        = some ((if xpos ≠ NULL then some x else none,
                 if ypos ≠ NULL then some y else none), s1) := by
  by_cases hsame : x = w.mousePosX ∧ y = w.mousePosY
  · refine ⟨s, glfwSetMousePos_same s window w x y hinit hw hsame.1 hsame.2, ?_⟩
    rw [glfwGetMousePos_read s window w xpos ypos hinit hw, hsame.1, hsame.2]
  · have hw1 := deref_store_same s window w { w with mousePosX := x, mousePosY := y } hw
    by_cases hlock : s.cursorLockWindow = window
    · exact ⟨s.store window { w with mousePosX := x, mousePosY := y },
        glfwSetMousePos_locked s window w x y hinit hw hsame hlock,
        glfwGetMousePos_read (s.store window { w with mousePosX := x, mousePosY := y })
          window { w with mousePosX := x, mousePosY := y } xpos ypos hinit hw1⟩
    · exact ⟨_glfwPlatformSetMouseCursorPos window x y
          (s.store window { w with mousePosX := x, mousePosY := y }),
        glfwSetMousePos_free s window w x y hinit hw hsame hlock,
        glfwGetMousePos_read
          (_glfwPlatformSetMouseCursorPos window x y
            (s.store window { w with mousePosX := x, mousePosY := y }))
          window { w with mousePosX := x, mousePosY := y } xpos ypos hinit hw1⟩

/-- Witness of C20: the sample window moved from (3, 4) to (-8, 9), without
and with the cursor lock, both outputs supplied. -/
theorem cursor_round_trip_witness :
    (sampleState._glfwInitialized = true ∧ sampleState.deref 1 = some sampleWindow ∧
      sampleLocked._glfwInitialized = true ∧ sampleLocked.deref 1 = some sampleWindow ∧
      sampleLocked.cursorLockWindow = 1) ∧
    (∃ s1, glfwSetMousePos 1 (-8) 9 sampleState = some s1 ∧
      glfwGetMousePos 1 7 8 s1 = some ((some (-8), some 9), s1)) ∧
    (∃ s1, glfwSetMousePos 1 (-8) 9 sampleLocked = some s1 ∧
      glfwGetMousePos 1 7 8 s1 = some ((some (-8), some 9), s1)) :=
  ⟨⟨rfl, by decide, rfl, by decide, rfl⟩,
   cursor_round_trip sampleState 1 sampleWindow (-8) 9 7 8 rfl (by decide),
   cursor_round_trip sampleLocked 1 sampleWindow (-8) 9 7 8 rfl (by decide)⟩

end GLFW
